import Mathlib

/-!
# Verification of the OpenSurgSim CCD collision core

Shallow embedding of the continuous-collision-detection (CCD) stepping loop
(`SurgSim/Physics/CcdCollisionLoop.cpp`) and of the mesh-vs-mesh narrow-phase
contact calculators (`SurgSim/Collision/TriangleMeshTriangleMeshContact.cpp`),
together with theorems settling the specification claims about them.

Modelling conventions:
* The loop works on `double` scalars that only ever undergo field arithmetic
  and comparisons; it is embedded over `ℚ` so that concrete runs are decidable.
  (One divergence, noted where used: C++ `1.0 / 0.0` is `+inf`, while `1 / 0 = 0`
  in `ℚ`; no theorem below depends on the value of that quotient.)
* The geometric calculators are embedded over `ℝ` (they use `sqrt` through
  vector normalization).
* External collaborators that live outside the translated sources (the
  AABB-tree join, the geometric primitive tests `distanceTriangleTriangle`,
  `calculateCcdContactSegmentSegment`, `calculateCcdContactPointTriangle`,
  `barycentricCoordinates`, and the per-iteration CCD narrow-phase result) are
  parameters ("oracles") of the embedded functions, exactly as they are opaque
  callees of the translated functions.
-/

namespace SurgSim

namespace Physics

/-- A collision contact as seen by the CCD loop: the loop reads only the
`time` field; `tag` keeps distinct contacts distinct. -/
structure CContact where
  time : ℚ
  tag : ℕ
deriving DecidableEq, Repr

/-- The contact lists of the `CONTINUOUS`-tagged collision pairs: one list of
contacts per pair. -/
abbrev PairContacts := List (List CContact)

/-- The inner `std::for_each` of `filterContacts`: fold `std::min` of the
contact times of one pair over the accumulator. -/
def foldMinTime (acc : Option ℚ) (l : List CContact) : Option ℚ :=
  l.foldl
    (fun a c =>
      match a with
      | none => some c.time
      | some t => some (min t c.time))
    acc

/-- `CcdCollisionLoop::filterContacts` first pass: fold the minimum contact
time over every pair's contacts.  C++ folds `std::min` starting from
`std::numeric_limits<double>::max()`; the sentinel is rendered as `none`. -/
def minContactTime (pairs : PairContacts) : Option ℚ :=
  pairs.foldl foldMinTime none

/-- Result of `CcdCollisionLoop::filterContacts`: the returned `bool`, the
pair contact lists after the in-place `remove_if`, and the value written
through `double* currentToi` (`none` when the function returned before
writing it). -/
structure FilterResult where
  found : Bool
  pairs : PairContacts
  currentToi : Option ℚ
deriving DecidableEq, Repr

/-- `CcdCollisionLoop::filterContacts` (CcdCollisionLoop.cpp, lines 117-155):
find the earliest time of impact over all pairs; if there is none return
`false` touching nothing; otherwise add `epsilon` to it, drop every contact
whose `time` exceeds that threshold, and report the threshold through
`*currentToi`. -/
def filterContacts (pairs : PairContacts) (epsilon : ℚ) : FilterResult :=
  match minContactTime pairs with
  | none => ⟨false, pairs, none⟩
  | some t =>
    let toi := t + epsilon
    ⟨true, pairs.map (fun l => l.filter (fun c => decide (c.time ≤ toi))), some toi⟩

/-- The loop-local scalar state of `CcdCollisionLoop::doUpdate` plus two
counters: `bodyRuns` counts executions of the `while` body (equivalently of
the `UpdateCcdData`/`CcdCollision` computations), `resolveRuns` counts
executions of the constraint-generation / build / solve / push sequence. -/
structure LoopState where
  toi : ℚ
  localToi : ℚ
  bodyRuns : ℕ
  resolveRuns : ℕ
deriving DecidableEq, Repr

/-- Why the `while` loop of `doUpdate` stopped. -/
inductive ExitReason
  /-- `filterContacts` returned `false` (no contact found). -/
  | noImpact
  /-- the `toi > 1.0` check fired after the resolve. -/
  | toiExceeded
  /-- `--iterations > 0` failed (iteration budget exhausted). -/
  | budget
deriving DecidableEq, Repr

/-- Outcome of the `while` loop: the final value of the `iterations` counter,
the final scalar state and counters, and the exit reason. -/
structure LoopOutcome where
  iterationsLeft : ℕ
  state : LoopState
  exit : ExitReason
deriving DecidableEq, Repr

/-- `SURGSIM_LOG_IF(iterations == 0, m_logger, WARNING)` at the end of
`doUpdate`: the warning is emitted exactly when the counter reached zero. -/
def warningLogged (o : LoopOutcome) : Bool :=
  o.iterationsLeft = 0

/-- The `while (--iterations > 0)` loop of `CcdCollisionLoop::doUpdate`
(CcdCollisionLoop.cpp, lines 80-110).  `gen k` is the contact content of the
CCD pairs produced by the `m_ccdCollision->update` call of the (0-indexed)
`k`-th body execution: that narrow-phase computation is an external
collaborator of this function.  The first argument carries the current value
of the `size_t iterations` counter before its pre-decrement; `doUpdate`
starts it at `m_maxIterations`.  (The C++ counter is `size_t`, so from 0 the
pre-decrement would wrap around; that wrap is not modelled, and every theorem
below assumes at least one iteration of budget.) -/
def ccdLoop (epsilonFactor : ℚ) (gen : ℕ → PairContacts) :
    ℕ → LoopState → LoopOutcome
  | 0, s => ⟨0, s, ExitReason.budget⟩
  | 1, s => ⟨0, s, ExitReason.budget⟩
  | n + 2, s =>
    let toi := s.toi + (1 - s.toi) * s.localToi
    let epsilon := 1 / ((1 - toi) * epsilonFactor)
    let fc := filterContacts (gen s.bodyRuns) epsilon
    if fc.found = false then
      ⟨n + 1, ⟨toi, s.localToi, s.bodyRuns + 1, s.resolveRuns⟩, ExitReason.noImpact⟩
    else
      let localToi := fc.currentToi.getD s.localToi
      let s' : LoopState := ⟨toi, localToi, s.bodyRuns + 1, s.resolveRuns + 1⟩
      if 1 < toi then ⟨n + 1, s', ExitReason.toiExceeded⟩
      else ccdLoop epsilonFactor gen (n + 1) s'

/-- One iteration's effect on the pair `(toi, localToi)`, assuming the filter
found a contact (when it found none the loop breaks and `localToi` is left
alone). -/
def ccdStep (epsilonFactor : ℚ) (pairs : PairContacts) (p : ℚ × ℚ) : ℚ × ℚ :=
  let toi := p.1 + (1 - p.1) * p.2
  let epsilon := 1 / ((1 - toi) * epsilonFactor)
  (toi, (filterContacts pairs epsilon).currentToi.getD p.2)

/-- `(toi, localToi)` as computed by the `k`-th body execution of the loop
(`ccdTrace … 0 = (0, 0)` is the initialization of lines 77-78). -/
def ccdTrace (epsilonFactor : ℚ) (gen : ℕ → PairContacts) : ℕ → ℚ × ℚ
  | 0 => (0, 0)
  | k + 1 => ccdStep epsilonFactor (gen k) (ccdTrace epsilonFactor gen k)

/-- The loop state at entry of body execution `j + 1` (the loop having
resolved once per body so far). -/
def stateAt (epsilonFactor : ℚ) (gen : ℕ → PairContacts) (j : ℕ) : LoopState :=
  ⟨(ccdTrace epsilonFactor gen j).1, (ccdTrace epsilonFactor gen j).2, j, j⟩

end Physics

namespace Collision

/-- A 3d vector with real components (the embedding of `Eigen::Vector3d`). -/
structure Vec3 where
  x : ℝ
  y : ℝ
  z : ℝ

namespace Vec3

def zero : Vec3 := ⟨0, 0, 0⟩

def add (a b : Vec3) : Vec3 := ⟨a.x + b.x, a.y + b.y, a.z + b.z⟩

def sub (a b : Vec3) : Vec3 := ⟨a.x - b.x, a.y - b.y, a.z - b.z⟩

def neg (a : Vec3) : Vec3 := ⟨-a.x, -a.y, -a.z⟩

def smul (r : ℝ) (a : Vec3) : Vec3 := ⟨r * a.x, r * a.y, r * a.z⟩

def dot (a b : Vec3) : ℝ := a.x * b.x + a.y * b.y + a.z * b.z

def cross (a b : Vec3) : Vec3 :=
  ⟨a.y * b.z - a.z * b.y, a.z * b.x - a.x * b.z, a.x * b.y - a.y * b.x⟩

/-- `Eigen`'s `.norm()`. -/
noncomputable def norm (a : Vec3) : ℝ := Real.sqrt (dot a a)

/-- `Eigen`'s `.normalized()`, i.e. `v / v.norm()`.  (For the zero vector C++
produces NaNs; here `0⁻¹ = 0` gives the zero vector.  No theorem below
depends on that case.) -/
noncomputable def normalized (a : Vec3) : Vec3 := smul (norm a)⁻¹ a

end Vec3

/-- A 3x3 matrix, row major. -/
structure Mat3 where
  a00 : ℝ
  a01 : ℝ
  a02 : ℝ
  a10 : ℝ
  a11 : ℝ
  a12 : ℝ
  a20 : ℝ
  a21 : ℝ
  a22 : ℝ

def Mat3.mulVec (m : Mat3) (v : Vec3) : Vec3 :=
  ⟨m.a00 * v.x + m.a01 * v.y + m.a02 * v.z,
   m.a10 * v.x + m.a11 * v.y + m.a12 * v.z,
   m.a20 * v.x + m.a21 * v.y + m.a22 * v.z⟩

def Mat3.transpose (m : Mat3) : Mat3 :=
  ⟨m.a00, m.a10, m.a20, m.a01, m.a11, m.a21, m.a02, m.a12, m.a22⟩

/-- `SurgSim::Math::RigidTransform3d` (an `Eigen` isometry): rotation plus
translation. -/
structure RigidTransform where
  rot : Mat3
  trans : Vec3

def RigidTransform.apply (t : RigidTransform) (v : Vec3) : Vec3 :=
  (t.rot.mulVec v).add t.trans

/-- `pose.inverse() * v` for a rigid transform: `Eigen` computes
`Rᵀ * (v - t)` for an isometry. -/
def RigidTransform.invApply (t : RigidTransform) (v : Vec3) : Vec3 :=
  t.rot.transpose.mulVec (v.sub t.trans)

/-- The identity pose. -/
def idRigid : RigidTransform := ⟨⟨1, 0, 0, 0, 1, 0, 0, 0, 1⟩, Vec3.zero⟩

/-- `SurgSim::Math::MeshShape` as the calculators see it: vertex positions
(`getVertexPosition`), the triangles' vertex-index triples (`getTriangle`,
`getNumTriangles`), and the cached per-triangle normals used by the DCD path
(`getNormal`). -/
structure MeshShape where
  vertices : ℕ → Vec3
  triangles : List (ℕ × ℕ × ℕ)
  normals : ℕ → Vec3

def MeshShape.numTriangles (m : MeshShape) : ℕ := m.triangles.length

def MeshShape.getTriangle (m : MeshShape) (i : ℕ) : ℕ × ℕ × ℕ :=
  m.triangles.getD i (0, 0, 0)

/-- The triangle's three vertex positions (`getTrianglePositions`). -/
def MeshShape.trianglePositions (m : MeshShape) (i : ℕ) : Vec3 × Vec3 × Vec3 :=
  let t := m.getTriangle i
  (m.vertices t.1, m.vertices t.2.1, m.vertices t.2.2)

/-- `SurgSim::Collision::CollisionDetectionType` of an emitted contact. -/
inductive DetectionType
  | discrete
  | continuous
deriving DecidableEq

/-- `SurgSim::DataStructures::IndexedLocalCoordinate`: a triangle (or
element) index and barycentric coordinates. -/
structure IndexedLocalCoordinate where
  index : ℕ
  coordinate : Vec3

/-- `SurgSim::DataStructures::Location` restricted to the fields the two
calculators write. -/
structure Location where
  triangleMeshLocalCoordinate : Option IndexedLocalCoordinate := none
  elementMeshLocalCoordinate : Option IndexedLocalCoordinate := none
  rigidLocalPosition : Option Vec3 := none

/-- `SurgSim::Collision::Contact` as constructed by the two mesh-mesh
calculators. -/
structure Contact where
  type : DetectionType
  depth : ℝ
  time : ℝ
  contact : Vec3
  normal : Vec3
  penetrationPoints : Location × Location

/-- Modelled from the spec: `SurgSim::Math::Geometry::DistanceEpsilon`, the
near-zero tolerance of the geometry package (its header is not among the
sources; the repository sets it to `1e-10`).  The theorems below only use
that it is positive. -/
noncomputable def DistanceEpsilon : ℝ := 1 / 10 ^ 10

/-- The external geometric primitives called by `calculateDcdContact`
(`SurgSim::Math::calculateContactTriangleTriangle` returning
`(depth, penetrationPointA, penetrationPointB, normal)` on intersection, and
the normal-assisted `SurgSim::Math::barycentricCoordinates`); their
implementations are not part of the translated sources. -/
structure DcdOracles where
  calculateContactTriangleTriangle :
    Vec3 → Vec3 → Vec3 → Vec3 → Vec3 → Vec3 → Vec3 → Vec3 → Option (ℝ × Vec3 × Vec3 × Vec3)
  barycentricCoordinates : Vec3 → Vec3 → Vec3 → Vec3 → Vec3 → Option Vec3

/-- Structure equality of vectors is classically decidable; this lets the
embedded code keep the source's `if` shape. -/
noncomputable instance : DecidableEq Vec3 := Classical.decEq Vec3

/-- Body of `calculateDcdContact`'s inner (second-mesh) loop for one
candidate pair `(i, j)` of triangle indices: skip a second-mesh triangle with
a zero cached normal, otherwise run the triangle-triangle test and emit one
contact on success (TriangleMeshTriangleMeshContact.cpp, lines 176-224).
`Eigen`'s `isZero()` is rendered as exact equality with zero.  A failed
barycentric-coordinate recovery leaves the C++ coordinate vector
indeterminate; it is rendered as zero (no theorem depends on it). -/
noncomputable def dcdTriangleB (o : DcdOracles) (meshA meshB : MeshShape)
    (poseA poseB : RigidTransform) (i j : ℕ) : List Contact :=
  let normalA := meshA.normals i
  let normalB := meshB.normals j
  if normalB = Vec3.zero then []
  else
    let vA := meshA.trianglePositions i
    let vB := meshB.trianglePositions j
    match o.calculateContactTriangleTriangle vA.1 vA.2.1 vA.2.2 vB.1 vB.2.1 vB.2.2
        normalA normalB with
    | none => []
    | some r =>
      let depth := r.1
      let penetrationPointA := r.2.1
      let penetrationPointB := r.2.2.1
      let normal := r.2.2.2
      let baryA := (o.barycentricCoordinates penetrationPointA vA.1 vA.2.1 vA.2.2 normalA).getD Vec3.zero
      let baryB := (o.barycentricCoordinates penetrationPointB vB.1 vB.2.1 vB.2.2 normalB).getD Vec3.zero
      let loc1 : Location :=
        { triangleMeshLocalCoordinate := some ⟨i, baryA⟩
          rigidLocalPosition := some (poseA.invApply penetrationPointA) }
      let loc2 : Location :=
        { triangleMeshLocalCoordinate := some ⟨j, baryB⟩
          rigidLocalPosition := some (poseB.invApply penetrationPointB) }
      [{ type := DetectionType.discrete, depth := |depth|, time := 1,
         contact := Vec3.zero, normal := normal, penetrationPoints := (loc1, loc2) }]

/-- Body of `calculateDcdContact`'s outer (first-mesh) loop for one triangle
`i` of the first mesh against the candidate triangles `listB` of the second:
a zero cached normal skips the triangle before any test
(TriangleMeshTriangleMeshContact.cpp, lines 166-172). -/
noncomputable def dcdTriangleA (o : DcdOracles) (meshA meshB : MeshShape)
    (poseA poseB : RigidTransform) (i : ℕ) (listB : List ℕ) : List Contact :=
  if meshA.normals i = Vec3.zero then []
  else listB.foldl (fun acc j => acc ++ dcdTriangleB o meshA meshB poseA poseB i j) []

/-- `TriangleMeshTriangleMeshContact::calculateDcdContact`
(TriangleMeshTriangleMeshContact.cpp, lines 139-228).  `intersectionList`
carries, per intersecting AABB-tree node pair, the two candidate
triangle-index lists produced by the external broad-phase
(`spatialJoin` / `getIntersections`). -/
noncomputable def calculateDcdContact (o : DcdOracles) (meshA : MeshShape) (poseA : RigidTransform)
    (meshB : MeshShape) (poseB : RigidTransform)
    (intersectionList : List (List ℕ × List ℕ)) : List Contact :=
  intersectionList.foldl
    (fun acc np =>
      acc ++ np.1.foldl (fun acc2 i => acc2 ++ dcdTriangleA o meshA meshB poseA poseB i np.2) [])
    []

/-- The external geometric primitives called by `calculateCcdContact`:
`SurgSim::Math::distanceTriangleTriangle` (returning the distance and the two
closest/penetration points), the plain `barycentricCoordinates`, and the two
swept root-finders, each returning `(timeOfImpact, parameter1, parameter2)`
when a root is found.  Their implementations are not part of the translated
sources; the spec (§4.1) contracts the root-finders to report only roots
with time in [0,1]. -/
structure CcdOracles where
  distanceTriangleTriangle : Vec3 → Vec3 → Vec3 → Vec3 → Vec3 → Vec3 → ℝ × Vec3 × Vec3
  barycentricCoordinates : Vec3 → Vec3 → Vec3 → Vec3 → Option Vec3
  calculateCcdContactSegmentSegment :
    Vec3 × Vec3 → Vec3 × Vec3 → Vec3 × Vec3 → Vec3 × Vec3 → Option (ℝ × ℝ × ℝ)
  calculateCcdContactPointTriangle :
    Vec3 × Vec3 → Vec3 × Vec3 → Vec3 × Vec3 → Vec3 × Vec3 → Option (ℝ × ℝ × ℝ)

/-- An axis-aligned bounding box. -/
structure Aabb where
  lo : Vec3
  hi : Vec3

def Aabb.ofPoint (p : Vec3) : Aabb := ⟨p, p⟩

/-- `Eigen::AlignedBox::extend`. -/
def Aabb.extend (b : Aabb) (p : Vec3) : Aabb :=
  ⟨⟨min b.lo.x p.x, min b.lo.y p.y, min b.lo.z p.z⟩,
   ⟨max b.hi.x p.x, max b.hi.y p.y, max b.hi.z p.z⟩⟩

/-- The box of the six endpoint positions of one swept triangle
(TriangleMeshTriangleMeshContact.cpp, lines 269-275). -/
def aabbOfSix (a b c d e f : Vec3) : Aabb :=
  (((((Aabb.ofPoint a).extend b).extend c).extend d).extend e).extend f

/-- `SurgSim::Math::doAabbIntersect` (its header is not among the sources):
the standard nonempty-overlap test of two boxes, interval overlap on each
axis. -/
def doAabbIntersect (a b : Aabb) : Prop :=
  a.lo.x ≤ b.hi.x ∧ b.lo.x ≤ a.hi.x ∧ a.lo.y ≤ b.hi.y ∧ b.lo.y ≤ a.hi.y ∧
    a.lo.z ≤ b.hi.z ∧ b.lo.z ≤ a.hi.z

/-- The running candidate of `calculateCcdContact`'s per-pair search:
`earliestTimeOfImpact`, the four barycentric parameters, and the two flags
selecting the normal construction
(TriangleMeshTriangleMeshContact.cpp, lines 312-339). -/
structure CcdCandidate where
  time : ℝ
  triangle1Alpha : ℝ
  triangle1Beta : ℝ
  triangle2Alpha : ℝ
  triangle2Beta : ℝ
  segmentSegmentCcdFound : Bool
  t1VertexThroughT2 : Bool

/-- The fifteen swept tests of the `]0..1]` branch, in source order: nine
edge/edge tests then six vertex/triangle tests, each slot carrying the
coordinate assignment its `if` body performs
(TriangleMeshTriangleMeshContact.cpp, lines 373-577).  A seg/seg slot leaves
`t1VertexThroughT2` at the value it has during the seg/seg phase, which is
its initial `false`. -/
def ccdSlots (o : CcdOracles) (t1v0 t1v1 t1v2 t2v0 t2v1 t2v2 : Vec3 × Vec3) :
    List (Option CcdCandidate) :=
  [(o.calculateCcdContactSegmentSegment t1v0 t1v1 t2v0 t2v1).map
      (fun r => ⟨r.1, r.2.1, 0, r.2.2, 0, true, false⟩),
   (o.calculateCcdContactSegmentSegment t1v0 t1v1 t2v1 t2v2).map
      (fun r => ⟨r.1, r.2.1, 0, 1 - r.2.2, r.2.2, true, false⟩),
   (o.calculateCcdContactSegmentSegment t1v0 t1v1 t2v2 t2v0).map
      (fun r => ⟨r.1, r.2.1, 0, 0, 1 - r.2.2, true, false⟩),
   (o.calculateCcdContactSegmentSegment t1v1 t1v2 t2v0 t2v1).map
      (fun r => ⟨r.1, 1 - r.2.1, r.2.1, r.2.2, 0, true, false⟩),
   (o.calculateCcdContactSegmentSegment t1v1 t1v2 t2v1 t2v2).map
      (fun r => ⟨r.1, 1 - r.2.1, r.2.1, 1 - r.2.2, r.2.2, true, false⟩),
   (o.calculateCcdContactSegmentSegment t1v1 t1v2 t2v2 t2v0).map
      (fun r => ⟨r.1, 1 - r.2.1, r.2.1, 0, 1 - r.2.2, true, false⟩),
   (o.calculateCcdContactSegmentSegment t1v2 t1v0 t2v0 t2v1).map
      (fun r => ⟨r.1, 0, 1 - r.2.1, r.2.2, 0, true, false⟩),
   (o.calculateCcdContactSegmentSegment t1v2 t1v0 t2v1 t2v2).map
      (fun r => ⟨r.1, 0, 1 - r.2.1, 1 - r.2.2, r.2.2, true, false⟩),
   (o.calculateCcdContactSegmentSegment t1v2 t1v0 t2v2 t2v0).map
      (fun r => ⟨r.1, 0, 1 - r.2.1, 0, 1 - r.2.2, true, false⟩),
   (o.calculateCcdContactPointTriangle t1v0 t2v0 t2v1 t2v2).map
      (fun r => ⟨r.1, 0, 0, r.2.1, r.2.2, false, true⟩),
   (o.calculateCcdContactPointTriangle t1v1 t2v0 t2v1 t2v2).map
      (fun r => ⟨r.1, 1, 0, r.2.1, r.2.2, false, true⟩),
   (o.calculateCcdContactPointTriangle t1v2 t2v0 t2v1 t2v2).map
      (fun r => ⟨r.1, 0, 1, r.2.1, r.2.2, false, true⟩),
   (o.calculateCcdContactPointTriangle t2v0 t1v0 t1v1 t1v2).map
      (fun r => ⟨r.1, r.2.1, r.2.2, 0, 0, false, false⟩),
   (o.calculateCcdContactPointTriangle t2v1 t1v0 t1v1 t1v2).map
      (fun r => ⟨r.1, r.2.1, r.2.2, 1, 0, false, false⟩),
   (o.calculateCcdContactPointTriangle t2v2 t1v0 t1v1 t1v2).map
      (fun r => ⟨r.1, r.2.1, r.2.2, 0, 1, false, false⟩)]

/-- The sequential `if (timeOfImpact < earliestTimeOfImpact)` chain over the
slots: a reporting slot replaces the running best exactly when its time is
strictly smaller (so on ties the earlier slot is kept).  The C++ sentinel
`std::numeric_limits<double>::max()` is rendered as `none`. -/
noncomputable def pickBest : Option CcdCandidate → List (Option CcdCandidate) → Option CcdCandidate
  | best, [] => best
  | best, o :: rest =>
    pickBest
      (match o with
       | none => best
       | some c =>
         match best with
         | none => some c
         | some b => if c.time < b.time then some c else some b)
      rest

/-- `T1` of the emission block (TriangleMeshTriangleMeshContact.cpp, lines
602-604): the first triangle's point at time t1.  [sic] the source
interpolates it with `triangle2Alpha`/`triangle2Beta`, the second triangle's
parameters. -/
def advectedT1 (t1v0 t1v1 t1v2 : Vec3 × Vec3) (cand : CcdCandidate) : Vec3 :=
  (t1v0.2).add ((Vec3.smul cand.triangle2Alpha ((t1v1.2).sub t1v0.2)).add
    (Vec3.smul cand.triangle2Beta ((t1v2.2).sub t1v0.2)))

/-- `T2` of the emission block (lines 606-608): the second triangle's point
at time t1. -/
def advectedT2 (t2v0 t2v1 t2v2 : Vec3 × Vec3) (cand : CcdCandidate) : Vec3 :=
  (t2v0.2).add ((Vec3.smul cand.triangle2Alpha ((t2v1.2).sub t2v0.2)).add
    (Vec3.smul cand.triangle2Beta ((t2v2.2).sub t2v0.2)))

/-- The contact-emission block of `calculateCcdContact`
(TriangleMeshTriangleMeshContact.cpp, lines 599-648): advect the two points
to t1, pick the normal by the flags, measure the depth as
`(T2 - T1) · normal`, and build the two Locations.  [sic] line 616 indexes
the first location with `triangleId` (the second mesh's triangle index), and
lines 625 and 638 compute both locations' `rigidLocalPosition` from `T1`
through the inverse of `pose2AtTime1`. -/
noncomputable def emitCcdContact (pose2AtTime1 : RigidTransform) (triangleId : ℕ)
    (t1v0 t1v1 t1v2 t2v0 t2v1 t2v2 : Vec3 × Vec3) (cand : CcdCandidate) : Contact :=
  let T1 := advectedT1 t1v0 t1v1 t1v2 cand
  let T2 := advectedT2 t2v0 t2v1 t2v2 cand
  let t1T0T1 := (t1v1.2).sub t1v0.2
  let t1T0T2 := (t1v2.2).sub t1v0.2
  let t2T0T1 := (t2v1.2).sub t2v0.2
  let t2T0T2 := (t2v2.2).sub t2v0.2
  let normal :=
    if cand.segmentSegmentCcdFound then (T1.sub T2).normalized
    else if cand.t1VertexThroughT2 then (t2T0T1.cross t2T0T2).normalized
    else ((t1T0T1.cross t1T0T2).normalized).neg
  let penetrationDepthAtT1 := (T2.sub T1).dot normal
  let triangle1Bary : Vec3 :=
    ⟨1 - cand.triangle1Alpha - cand.triangle1Beta, cand.triangle1Alpha, cand.triangle1Beta⟩
  let locationTriangle1 : Location :=
    { triangleMeshLocalCoordinate := some ⟨triangleId, triangle1Bary⟩
      elementMeshLocalCoordinate := some ⟨triangleId, triangle1Bary⟩
      rigidLocalPosition := some (pose2AtTime1.invApply T1) }
  let triangle2Bary : Vec3 :=
    ⟨1 - cand.triangle2Alpha - cand.triangle2Beta, cand.triangle2Alpha, cand.triangle2Beta⟩
  let locationTriangle2 : Location :=
    { triangleMeshLocalCoordinate := some ⟨triangleId, triangle2Bary⟩
      elementMeshLocalCoordinate := some ⟨triangleId, triangle2Bary⟩
      rigidLocalPosition := some (pose2AtTime1.invApply T1) }
  { type := DetectionType.continuous, depth := penetrationDepthAtT1, time := cand.time,
    contact := Vec3.smul (1 / 2) (T1.add T2), normal := normal,
    penetrationPoints := (locationTriangle1, locationTriangle2) }

/-- The candidate built by the t0-overlap branch (lines 341-368): time 0 and
barycentric coordinates recovered at t0.  A failed recovery logs a warning
and leaves the C++ coordinates indeterminate (rendered as zero). -/
def overlapCand (o : CcdOracles) (t1v0 t1v1 t1v2 t2v0 t2v1 t2v2 : Vec3 × Vec3) :
    CcdCandidate :=
  let d := o.distanceTriangleTriangle t1v0.1 t1v1.1 t1v2.1 t2v0.1 t2v1.1 t2v2.1
  let c1 := (o.barycentricCoordinates d.2.1 t1v0.1 t1v1.1 t1v2.1).getD Vec3.zero
  let c2 := (o.barycentricCoordinates d.2.2 t2v0.1 t2v1.1 t2v2.1).getD Vec3.zero
  ⟨0, c1.y, c1.z, c2.y, c2.z, false, false⟩

open Classical in
/-- One candidate triangle pair of `calculateCcdContact`
(TriangleMeshTriangleMeshContact.cpp, lines 269-649): swept-AABB prune,
degenerate-normal warnings (counted in the second component; the normalized
`t1n`/`t2n` are not used further by the source), the t0 overlap test, and
otherwise the fifteen swept tests; emit one contact when a time of impact was
found. -/
noncomputable def ccdTrianglePair (o : CcdOracles) (pose2AtTime1 : RigidTransform)
    (triangleId : ℕ) (t1v0 t1v1 t1v2 t2v0 t2v1 t2v2 : Vec3 × Vec3) : List Contact × ℕ :=
  let triangle1Aabb := aabbOfSix t1v0.1 t1v0.2 t1v1.1 t1v1.2 t1v2.1 t1v2.2
  let triangle2Aabb := aabbOfSix t2v0.1 t2v0.2 t2v1.1 t2v1.2 t2v2.1 t2v2.2
  if doAabbIntersect triangle1Aabb triangle2Aabb then
    let t1n := ((t1v1.1).sub t1v0.1).cross ((t1v2.1).sub t1v0.1)
    let t2n := ((t2v1.1).sub t2v0.1).cross ((t2v2.1).sub t2v0.1)
    let degenerateWarnings :=
      (if t1n.norm < DistanceEpsilon then 1 else 0) +
        (if t2n.norm < DistanceEpsilon then 1 else 0)
    let d := o.distanceTriangleTriangle t1v0.1 t1v1.1 t1v2.1 t2v0.1 t2v1.1 t2v2.1
    if d.1 ≤ 0 then
      let b1 := o.barycentricCoordinates d.2.1 t1v0.1 t1v1.1 t1v2.1
      let b2 := o.barycentricCoordinates d.2.2 t2v0.1 t2v1.1 t2v2.1
      let baryWarnings := (if b1 = none then 1 else 0) + (if b2 = none then 1 else 0)
      ([emitCcdContact pose2AtTime1 triangleId t1v0 t1v1 t1v2 t2v0 t2v1 t2v2
          (overlapCand o t1v0 t1v1 t1v2 t2v0 t2v1 t2v2)],
        degenerateWarnings + baryWarnings)
    else
      match pickBest none (ccdSlots o t1v0 t1v1 t1v2 t2v0 t2v1 t2v2) with
      | none => ([], degenerateWarnings)
      | some cand =>
        ([emitCcdContact pose2AtTime1 triangleId t1v0 t1v1 t1v2 t2v0 t2v1 t2v2 cand],
          degenerateWarnings)
  else ([], 0)

/-- The inner (second-mesh) loop of `calculateCcdContact` for one first-mesh
triangle with swept endpoints `t1v0 t1v1 t1v2`
(TriangleMeshTriangleMeshContact.cpp, lines 277-649). -/
noncomputable def ccdInnerLoop (o : CcdOracles) (pose2AtTime1 : RigidTransform)
    (shape2AtTime0 shape2AtTime1 : MeshShape)
    (t1v0 t1v1 t1v2 : Vec3 × Vec3) (acc : List Contact × ℕ) : List Contact × ℕ :=
  (List.range shape2AtTime0.numTriangles).foldl
    (fun acc2 triangleId =>
      let triangle2T0 := shape2AtTime0.getTriangle triangleId
      let triangle2T1 := shape2AtTime1.getTriangle triangleId
      let t2v0 := (shape2AtTime0.vertices triangle2T0.1, shape2AtTime1.vertices triangle2T1.1)
      let t2v1 := (shape2AtTime0.vertices triangle2T0.2.1, shape2AtTime1.vertices triangle2T1.2.1)
      let t2v2 := (shape2AtTime0.vertices triangle2T0.2.2, shape2AtTime1.vertices triangle2T1.2.2)
      let r := ccdTrianglePair o pose2AtTime1 triangleId t1v0 t1v1 t1v2 t2v0 t2v1 t2v2
      (acc2.1 ++ r.1, acc2.2 + r.2))
    acc

set_option linter.unusedVariables false in
/-- `TriangleMeshTriangleMeshContact::calculateCcdContact`
(TriangleMeshTriangleMeshContact.cpp, lines 230-653): loop over all triangle
pairs; the second component counts the degeneracy warnings logged.  [sic]
lines 259-267: the "first" triangle's six endpoint positions are read from
the SECOND shape's vertex arrays at the first triangle's vertex indices.
Only `pose2AtTime1` of the four poses is ever used, as in the source.  The
`SURGSIM_ASSERT`s comparing the t0/t1 vertex-index triples guard caller
misuse and do not otherwise affect the computation; they are not modelled. -/
noncomputable def calculateCcdContact (o : CcdOracles)
    (shape1AtTime0 : MeshShape) (pose1AtTime0 : RigidTransform)
    (shape1AtTime1 : MeshShape) (pose1AtTime1 : RigidTransform)
    (shape2AtTime0 : MeshShape) (pose2AtTime0 : RigidTransform)
    (shape2AtTime1 : MeshShape) (pose2AtTime1 : RigidTransform) : List Contact × ℕ :=
  (List.range shape1AtTime0.numTriangles).foldl
    (fun acc triangle1Id =>
      let triangle1T0 := shape1AtTime0.getTriangle triangle1Id
      let triangle1T1 := shape1AtTime1.getTriangle triangle1Id
      let t1v0 := (shape2AtTime0.vertices triangle1T0.1, shape2AtTime1.vertices triangle1T1.1)
      let t1v1 := (shape2AtTime0.vertices triangle1T0.2.1, shape2AtTime1.vertices triangle1T1.2.1)
      let t1v2 := (shape2AtTime0.vertices triangle1T0.2.2, shape2AtTime1.vertices triangle1T1.2.2)
      ccdInnerLoop o pose2AtTime1 shape2AtTime0 shape2AtTime1 t1v0 t1v1 t1v2 acc)
    ([], 0)

end Collision

namespace Physics

/-- The single-pair contact configuration of the spec's filter test: contacts
at times 0.1, 0.2 and 0.3. -/
def threeTimesPairs : PairContacts := [[⟨1/10, 0⟩, ⟨2/10, 1⟩, ⟨3/10, 2⟩]]

/-- A narrow-phase oracle producing one contact at time 0 on every
iteration: every filter call finds a contact and the accumulated toi grows by
exactly `1 / epsilonFactor` per iteration. -/
def genBudget : ℕ → PairContacts := fun _ => [[⟨0, 0⟩]]

/-- A narrow-phase oracle whose first iteration reports a contact at time
`1 - 1/epsilonFactor` (for `epsilonFactor = 100`), making the filter report a
local toi of exactly 1 and driving the accumulated toi to exactly 1.0 at the
second iteration. -/
def genToiOne : ℕ → PairContacts
  | 0 => [[⟨99/100, 0⟩]]
  | _ + 1 => [[⟨0, 0⟩]]

/-- A narrow-phase oracle with one contact at time 0.1 every iteration. -/
def genTenth : ℕ → PairContacts := fun _ => [[⟨1/10, 0⟩]]

/-- A narrow-phase oracle producing pairs with no contacts at all. -/
def genEmpty : ℕ → PairContacts := fun _ => [[], []]

/-- The loop state at entry of `doUpdate`'s `while` loop (lines 77-78:
`toi = 0`, `localToi = 0`, nothing yet executed). -/
def initState : LoopState := ⟨0, 0, 0, 0⟩

end Physics

namespace Collision

/-- The second shape's vertex positions at t0 for the concrete runs below:
indices 0-2 hold a regular triangle, indices 3-5 hold a degenerate
(collinear) triangle. -/
def vertsT0Cex : ℕ → Vec3
  | 0 => ⟨0, 0, 0⟩
  | 1 => ⟨1, 0, 0⟩
  | 2 => ⟨0, 1, 0⟩
  | 3 => ⟨0, 0, 1⟩
  | 4 => ⟨1, 0, 1⟩
  | 5 => ⟨2, 0, 1⟩
  | _ + 6 => Vec3.zero

/-- The second shape's vertex positions at t1: indices 0-2 are stationary,
indices 3-5 moved down to z = -1. -/
def vertsT1Cex : ℕ → Vec3
  | 0 => ⟨0, 0, 0⟩
  | 1 => ⟨1, 0, 0⟩
  | 2 => ⟨0, 1, 0⟩
  | 3 => ⟨0, 0, -1⟩
  | 4 => ⟨1, 0, -1⟩
  | 5 => ⟨2, 0, -1⟩
  | _ + 6 => Vec3.zero

/-- The first shape of the concrete CCD runs: one triangle with vertex
indices (3,4,5); its own vertex positions are irrelevant to
`calculateCcdContact` and are set to zero. -/
def shape1Cex : MeshShape := ⟨fun _ => Vec3.zero, [(3, 4, 5)], fun _ => Vec3.zero⟩

/-- A copy of `shape1Cex` with different (nonzero) vertex positions but the
same triangles, for the vertex-independence claim. -/
def shape1CexMoved : MeshShape := ⟨fun _ => ⟨5, 5, 5⟩, [(3, 4, 5)], fun _ => Vec3.zero⟩

/-- The second shape at t0. -/
def shape2T0Cex : MeshShape := ⟨vertsT0Cex, [(0, 1, 2)], fun _ => Vec3.zero⟩

/-- The second shape at t1. -/
def shape2T1Cex : MeshShape := ⟨vertsT1Cex, [(0, 1, 2)], fun _ => Vec3.zero⟩

/-- The swept endpoints of the first triangle of the concrete run, i.e.
`(shape2AtTime0, shape2AtTime1)` positions at indices 3, 4, 5. -/
def t1v0Cex : Vec3 × Vec3 := (⟨0, 0, 1⟩, ⟨0, 0, -1⟩)

def t1v1Cex : Vec3 × Vec3 := (⟨1, 0, 1⟩, ⟨1, 0, -1⟩)

def t1v2Cex : Vec3 × Vec3 := (⟨2, 0, 1⟩, ⟨2, 0, -1⟩)

/-- The swept endpoints of the second triangle (indices 0, 1, 2;
stationary). -/
def t2v0Cex : Vec3 × Vec3 := (⟨0, 0, 0⟩, ⟨0, 0, 0⟩)

def t2v1Cex : Vec3 × Vec3 := (⟨1, 0, 0⟩, ⟨1, 0, 0⟩)

def t2v2Cex : Vec3 × Vec3 := (⟨0, 1, 0⟩, ⟨0, 1, 0⟩)

/-- Concrete primitive-test results for the CCD runs: the triangles are 1
apart at t0; every edge/edge swept test reports a root at time 1/2 with both
parameters 0; the vertex/triangle tests report no root.  The reported times
are within [0,1], as the spec contracts the root-finders to do. -/
noncomputable def oCex : CcdOracles :=
  { distanceTriangleTriangle := fun _ _ _ _ _ _ => (1, Vec3.zero, Vec3.zero)
    barycentricCoordinates := fun _ _ _ _ => some Vec3.zero
    calculateCcdContactSegmentSegment := fun _ _ _ _ => some (1/2, 0, 0)
    calculateCcdContactPointTriangle := fun _ _ _ _ => none }

/-- The winning candidate of the concrete run: the first edge/edge slot. -/
noncomputable def candCex : CcdCandidate := ⟨1/2, 0, 0, 0, 0, true, false⟩

/-- The Location both penetration points of the concrete run receive. -/
def locCex : Location :=
  { triangleMeshLocalCoordinate := some ⟨0, ⟨1, 0, 0⟩⟩
    elementMeshLocalCoordinate := some ⟨0, ⟨1, 0, 0⟩⟩
    rigidLocalPosition := some ⟨0, 0, -1⟩ }

/-- The single contact the concrete CCD run emits: time 1/2, normal
(0,0,-1), and a negative depth -1. -/
noncomputable def contactCex : Contact :=
  { type := DetectionType.continuous, depth := -1, time := 1/2,
    contact := ⟨0, 0, -(1/2)⟩, normal := ⟨0, 0, -1⟩,
    penetrationPoints := (locCex, locCex) }

/-- A mesh whose cached triangle normals are all zero, for the DCD
degenerate-skip witness. -/
def meshZeroNormalsCex : MeshShape := ⟨vertsT0Cex, [(0, 1, 2)], fun _ => Vec3.zero⟩

/-- A mesh with a nonzero cached normal on triangle 0. -/
def meshUnitNormalCex : MeshShape := ⟨vertsT0Cex, [(0, 1, 2)], fun _ => ⟨0, 0, 1⟩⟩

/-- A concrete DCD primitive oracle: the triangle-triangle test always
reports an intersection of depth -2 (the calculator stores its absolute
value). -/
def oDcdCex : DcdOracles :=
  { calculateContactTriangleTriangle := fun _ _ _ _ _ _ _ _ =>
      some (-2, Vec3.zero, Vec3.zero, ⟨0, 0, 1⟩)
    barycentricCoordinates := fun _ _ _ _ _ => some Vec3.zero }

end Collision

namespace Physics

lemma foldMinTime_ne_none_of_some (l : List CContact) :
    ∀ t : ℚ, foldMinTime (some t) l ≠ none := by
  induction l with
  | nil => intro t; simp [foldMinTime]
  | cons c l ih => intro t; exact ih (min t c.time)

lemma foldMinTime_eq_none_iff (l : List CContact) (acc : Option ℚ) :
    foldMinTime acc l = none ↔ acc = none ∧ l = [] := by
  cases l with
  | nil => simp [foldMinTime]
  | cons c l =>
    cases acc with
    | none =>
      simp only [List.cons_ne_nil, and_false, iff_false]
      exact foldMinTime_ne_none_of_some l c.time
    | some t =>
      simp only [List.cons_ne_nil, and_false, iff_false, reduceCtorEq, false_and]
      exact foldMinTime_ne_none_of_some l (min t c.time)

lemma minFold_eq_none_iff (pairs : PairContacts) :
    ∀ acc : Option ℚ,
      pairs.foldl foldMinTime acc = none ↔ acc = none ∧ ∀ l ∈ pairs, l = [] := by
  induction pairs with
  | nil => intro acc; simp
  | cons p ps ih =>
    intro acc
    rw [List.foldl_cons, ih (foldMinTime acc p), foldMinTime_eq_none_iff]
    constructor
    · rintro ⟨⟨h1, h2⟩, h3⟩
      exact ⟨h1, by
        intro l hl
        rcases List.mem_cons.mp hl with rfl | hl
        · exact h2
        · exact h3 l hl⟩
    · rintro ⟨h1, h2⟩
      exact ⟨⟨h1, h2 p (List.mem_cons_self p ps)⟩,
        fun l hl => h2 l (List.mem_cons_of_mem p hl)⟩

lemma minContactTime_eq_none_iff (pairs : PairContacts) :
    minContactTime pairs = none ↔ ∀ l ∈ pairs, l = [] := by
  rw [minContactTime, minFold_eq_none_iff]
  simp

lemma filterContacts_of_none {pairs : PairContacts} (epsilon : ℚ)
    (h : minContactTime pairs = none) :
    filterContacts pairs epsilon = ⟨false, pairs, none⟩ := by
  simp [filterContacts, h]

lemma filterContacts_of_some {pairs : PairContacts} {t : ℚ} (epsilon : ℚ)
    (h : minContactTime pairs = some t) :
    filterContacts pairs epsilon =
      ⟨true, pairs.map (fun l => l.filter (fun c => decide (c.time ≤ t + epsilon))),
        some (t + epsilon)⟩ := by
  simp [filterContacts, h]

lemma filterContacts_found_false_iff (pairs : PairContacts) (epsilon : ℚ) :
    (filterContacts pairs epsilon).found = false ↔ minContactTime pairs = none := by
  cases h : minContactTime pairs with
  | none => simp [filterContacts_of_none epsilon h]
  | some t => simp [filterContacts_of_some epsilon h]

lemma minContactTime_single (c : CContact) : minContactTime [[c]] = some c.time := by
  simp [minContactTime, foldMinTime]

lemma ccdStep_single (epsilonFactor : ℚ) (c : CContact) (p : ℚ × ℚ) :
    ccdStep epsilonFactor [[c]] p =
      (p.1 + (1 - p.1) * p.2,
       c.time + 1 / ((1 - (p.1 + (1 - p.1) * p.2)) * epsilonFactor)) := by
  simp [ccdStep, filterContacts_of_some _ (minContactTime_single c)]

/-- Closed form of the run driven by `genBudget`: each iteration's
accumulated toi advances by exactly 1/100. -/
lemma genBudget_trace : ∀ k : ℕ, k ≤ 99 →
    ccdTrace 100 genBudget (k + 1) = ((k : ℚ) / 100, 1 / (100 - (k : ℚ))) := by
  intro k
  induction k with
  | zero =>
    intro _
    show ccdStep 100 (genBudget 0) (ccdTrace 100 genBudget 0) = _
    rw [show genBudget 0 = [[⟨0, 0⟩]] from rfl, show ccdTrace 100 genBudget 0 = (0, 0) from rfl,
      ccdStep_single]
    norm_num
  | succ k ih =>
    intro hk
    have hk99 : (k : ℚ) ≤ 99 := by exact_mod_cast (by omega : k ≤ 99)
    have hne : (100 : ℚ) - (k : ℚ) ≠ 0 := by linarith
    show ccdStep 100 (genBudget (k + 1)) (ccdTrace 100 genBudget (k + 1)) = _
    rw [show genBudget (k + 1) = [[⟨0, 0⟩]] from rfl, ih (by omega), ccdStep_single]
    have hfst : (k : ℚ) / 100 + (1 - (k : ℚ) / 100) * (1 / (100 - (k : ℚ)))
        = ((k : ℚ) + 1) / 100 := by
      field_simp
      ring
    rw [Prod.mk.injEq]
    constructor
    · rw [hfst]; push_cast; ring
    · rw [hfst]
      rw [show (0 : ℚ) + 1 / ((1 - ((k : ℚ) + 1) / 100) * 100) =
          1 / ((1 - ((k : ℚ) + 1) / 100) * 100) by ring]
      rw [show (1 - ((k : ℚ) + 1) / 100) * 100 = 100 - ((k : ℚ) + 1) by ring]
      push_cast
      ring_nf

lemma genBudget_toi_le (k : ℕ) (hk : k ≤ 100) : (ccdTrace 100 genBudget k).1 ≤ 1 := by
  cases k with
  | zero => norm_num [ccdTrace]
  | succ j =>
    rw [genBudget_trace j (by omega)]
    have : (j : ℚ) ≤ 99 := by exact_mod_cast (by omega : j ≤ 99)
    simp only []
    rw [div_le_one (by norm_num : (0:ℚ) < 100)]
    linarith

lemma genBudget_contacts (k : ℕ) : minContactTime (genBudget k) ≠ none := by
  rw [show genBudget k = [[⟨0, 0⟩]] from rfl, minContactTime_single]
  simp

/-- C1: on a CCD pair set with contacts at times {0.1, 0.2, 0.3},
`filterContacts` with epsilon 0 reports `*currentToi = 0.1` and removes the
contacts at 0.2 and 0.3, keeping exactly the one contact at 0.1; with epsilon
0.11 it removes only the contact at 0.3, keeping the two contacts at 0.1 and
0.2. -/
theorem claim1_filter_concrete :
    filterContacts threeTimesPairs 0 = ⟨true, [[⟨1/10, 0⟩]], some (1/10)⟩ ∧
    (filterContacts threeTimesPairs (11/100)).found = true ∧
    (filterContacts threeTimesPairs (11/100)).pairs = [[⟨1/10, 0⟩, ⟨2/10, 1⟩]] := by
  refine ⟨?_, ?_, ?_⟩ <;>
    norm_num [threeTimesPairs, filterContacts, minContactTime, foldMinTime, min_def,
      List.filter]

/-- C5: `filterContacts` returns `false` exactly when no contact exists on
any pair, in which case it neither modifies the contact lists nor writes
`*currentToi`; and a body iteration of `doUpdate` whose CCD narrow-phase
produced no contacts breaks out of the loop with `noImpact`, executing none
of the constraint-generation / build / solve / push computations
(`resolveRuns` is unchanged). -/
theorem claim5_no_contact_noImpact :
    (∀ (pairs : PairContacts) (epsilon : ℚ),
      ((filterContacts pairs epsilon).found = false ↔ ∀ l ∈ pairs, l = []) ∧
      ((filterContacts pairs epsilon).found = false →
        (filterContacts pairs epsilon).pairs = pairs ∧
          (filterContacts pairs epsilon).currentToi = none)) ∧
    (∀ (epsilonFactor : ℚ) (gen : ℕ → PairContacts) (n : ℕ) (s : LoopState),
      (∀ l ∈ gen s.bodyRuns, l = []) →
      ccdLoop epsilonFactor gen (n + 2) s =
        ⟨n + 1, ⟨s.toi + (1 - s.toi) * s.localToi, s.localToi, s.bodyRuns + 1, s.resolveRuns⟩,
          ExitReason.noImpact⟩) := by
  constructor
  · intro pairs epsilon
    refine ⟨by rw [filterContacts_found_false_iff, minContactTime_eq_none_iff], ?_⟩
    intro h
    rw [filterContacts_found_false_iff] at h
    rw [filterContacts_of_none epsilon h]
    exact ⟨rfl, rfl⟩
  · intro epsilonFactor gen n s h
    have hmin : minContactTime (gen s.bodyRuns) = none :=
      (minContactTime_eq_none_iff (gen s.bodyRuns)).mpr h
    simp [ccdLoop, filterContacts_of_none _ hmin]

/-- C5 witness: a first iteration with contact-free pairs stops the loop at
once with one body execution and zero resolves. -/
theorem claim5_witness :
    ccdLoop 100 genEmpty 2 initState =
      ⟨1, ⟨0 + (1 - 0) * 0, 0, 1, 0⟩, ExitReason.noImpact⟩ :=
  claim5_no_contact_noImpact.2 100 genEmpty 0 initState (by decide)

/-- C3: in a loop iteration whose filter found contacts (at the epsilon the
loop computes from the freshly accumulated toi), the reported local toi is
the earliest contact time plus that epsilon, exactly the contacts with time
at most that threshold are kept, the loop continues with that local toi, and
the next accumulation is `toi + (1 - toi) * localToi`. -/
theorem claim3_iteration_formulas (epsilonFactor : ℚ) (gen : ℕ → PairContacts) (n : ℕ)
    (s : LoopState) (toi epsilon t : ℚ) (P' : PairContacts)
    (htoi : toi = s.toi + (1 - s.toi) * s.localToi)
    (heps : epsilon = 1 / ((1 - toi) * epsilonFactor))
    (hfc : filterContacts (gen s.bodyRuns) epsilon = ⟨true, P', some t⟩) :
    (∃ m, minContactTime (gen s.bodyRuns) = some m ∧ t = m + epsilon ∧
      P' = (gen s.bodyRuns).map (fun l => l.filter (fun c => decide (c.time ≤ t)))) ∧
    (¬ 1 < toi →
      ccdLoop epsilonFactor gen (n + 2) s =
        ccdLoop epsilonFactor gen (n + 1) ⟨toi, t, s.bodyRuns + 1, s.resolveRuns + 1⟩) ∧
    (∀ pairs : PairContacts, (ccdStep epsilonFactor pairs (toi, t)).1 = toi + (1 - toi) * t) := by
  obtain ⟨m, hm⟩ : ∃ m, minContactTime (gen s.bodyRuns) = some m := by
    cases h : minContactTime (gen s.bodyRuns) with
    | none => rw [filterContacts_of_none epsilon h] at hfc; cases hfc
    | some m => exact ⟨m, rfl⟩
  rw [filterContacts_of_some epsilon hm] at hfc
  obtain ⟨hP, ht⟩ : P' = (gen s.bodyRuns).map
        (fun l => l.filter (fun c => decide (c.time ≤ m + epsilon))) ∧ m + epsilon = t := by
    cases hfc; exact ⟨rfl, rfl⟩
  refine ⟨⟨m, hm, ht.symm, by rw [hP, ← ht]⟩, ?_, ?_⟩
  · intro hle
    subst htoi heps
    simp only [ccdLoop, filterContacts_of_some _ hm, ht]
    simp [hle]
  · intro pairs
    simp [ccdStep]

/-- C3 witness: the formulas instantiated on a first iteration with a
contact at time 0.1 and epsilon factor 100. -/
theorem claim3_witness :
    (∃ m, minContactTime (genTenth 0) = some m ∧ (11/100 : ℚ) = m + 1/100 ∧
      [[(⟨1/10, 0⟩ : CContact)]] =
        (genTenth 0).map (fun l => l.filter (fun c => decide (c.time ≤ 11/100)))) ∧
    ccdLoop 100 genTenth 5 initState = ccdLoop 100 genTenth 4 ⟨0, 11/100, 1, 1⟩ ∧
    (ccdStep 100 (genBudget 0) (0, 11/100)).1 = 0 + (1 - 0) * (11/100) := by
  have h := claim3_iteration_formulas 100 genTenth 3 initState 0 (1/100) (11/100)
    [[⟨1/10, 0⟩]] (by norm_num [initState]) (by norm_num)
    (by norm_num [genTenth, filterContacts, minContactTime, foldMinTime, List.filter])
  exact ⟨h.1, h.2.1 (by norm_num), h.2.2 (genBudget 0)⟩

/-- C4 (amended): after a resolve the loop stops through the toi check
exactly when the accumulated toi strictly exceeds 1.0; at a value of exactly
1.0 (or below) it proceeds to another iteration. -/
theorem claim4_toi_stop_strict (epsilonFactor : ℚ) (gen : ℕ → PairContacts) (n : ℕ)
    (s : LoopState) (toi t : ℚ) (P' : PairContacts)
    (htoi : toi = s.toi + (1 - s.toi) * s.localToi)
    (hfc : filterContacts (gen s.bodyRuns) (1 / ((1 - toi) * epsilonFactor)) =
      ⟨true, P', some t⟩) :
    (1 < toi →
      ccdLoop epsilonFactor gen (n + 2) s =
        ⟨n + 1, ⟨toi, t, s.bodyRuns + 1, s.resolveRuns + 1⟩, ExitReason.toiExceeded⟩) ∧
    (toi ≤ 1 →
      ccdLoop epsilonFactor gen (n + 2) s =
        ccdLoop epsilonFactor gen (n + 1) ⟨toi, t, s.bodyRuns + 1, s.resolveRuns + 1⟩) := by
  subst htoi
  constructor
  · intro hgt
    simp only [ccdLoop, hfc]
    simp [hgt]
  · intro hle
    simp only [ccdLoop, hfc]
    simp [not_lt.mpr hle]

/-- C4 witness: with an accumulated toi of 2 the loop stops reporting
`toiExceeded`; with an accumulated toi of 0 it continues. -/
theorem claim4_witness :
    ccdLoop 100 genTenth 2 ⟨0, 2, 0, 0⟩ =
      ⟨1, ⟨2, 9/100, 1, 1⟩, ExitReason.toiExceeded⟩ ∧
    ccdLoop 100 genTenth 2 initState = ccdLoop 100 genTenth 1 ⟨0, 11/100, 1, 1⟩ := by
  have h1 := claim4_toi_stop_strict 100 genTenth 0 ⟨0, 2, 0, 0⟩ 2 (9/100) [[]]
    (by norm_num)
    (by norm_num [genTenth, filterContacts, minContactTime, foldMinTime, List.filter])
  have h2 := claim4_toi_stop_strict 100 genTenth 0 initState 0 (11/100) [[⟨1/10, 0⟩]]
    (by norm_num [initState])
    (by norm_num [genTenth, filterContacts, minContactTime, foldMinTime, List.filter])
  exact ⟨h1.1 (by norm_num), h2.2 (by norm_num)⟩

/-- C4 counterexample to the claim as stated: in the concrete run driven by
`genToiOne` the accumulated toi equals exactly 1.0 during the second body
execution (`ccdTrace … 2`), that body's resolve executes, and the loop then
begins a third body execution instead of stopping: the claim's "greater than
or equal to 1.0 stops the loop" fails at equality (the code tests the strict
`toi > 1.0`). -/
theorem claim4_counterexample :
    (ccdTrace 100 genToiOne 2).1 = 1 ∧
    (ccdLoop 100 genToiOne 4 initState).state.bodyRuns = 3 ∧
    (ccdLoop 100 genToiOne 4 initState).state.resolveRuns = 3 ∧
    (ccdLoop 100 genToiOne 4 initState).exit = ExitReason.budget := by
  have hrun : ccdLoop 100 genToiOne 4 initState = ⟨0, ⟨1, 0, 3, 3⟩, ExitReason.budget⟩ := by
    norm_num [initState, show (4:ℕ) = 2+2 from rfl, ccdLoop, genToiOne, filterContacts,
      minContactTime, foldMinTime, List.filter]
  refine ⟨?_, by rw [hrun], by rw [hrun], by rw [hrun]⟩
  norm_num [ccdTrace, ccdStep, genToiOne, filterContacts, minContactTime, foldMinTime,
    List.filter]

lemma ccdLoop_budget_aux (epsilonFactor : ℚ) (gen : ℕ → PairContacts) :
    ∀ r j : ℕ,
      (∀ k, k < j + r → minContactTime (gen k) ≠ none) →
      (∀ k, k ≤ j + r → (ccdTrace epsilonFactor gen k).1 ≤ 1) →
      ccdLoop epsilonFactor gen (r + 1) (stateAt epsilonFactor gen j) =
        ⟨0, stateAt epsilonFactor gen (j + r), ExitReason.budget⟩ := by
  intro r
  induction r with
  | zero => intro j _ _; simp [ccdLoop]
  | succ m ih =>
    intro j hC hT
    obtain ⟨t0, ht0⟩ : ∃ t0, minContactTime (gen j) = some t0 := by
      cases h : minContactTime (gen j) with
      | none => exact absurd h (hC j (by omega))
      | some t0 => exact ⟨t0, rfl⟩
    have htoi : (ccdTrace epsilonFactor gen (j + 1)).1 =
        (ccdTrace epsilonFactor gen j).1 +
          (1 - (ccdTrace epsilonFactor gen j).1) * (ccdTrace epsilonFactor gen j).2 := rfl
    have hle : (ccdTrace epsilonFactor gen (j + 1)).1 ≤ 1 := hT (j + 1) (by omega)
    rw [htoi] at hle
    have hlocal : (ccdTrace epsilonFactor gen (j + 1)).2 =
        t0 + 1 / ((1 - ((ccdTrace epsilonFactor gen j).1 +
          (1 - (ccdTrace epsilonFactor gen j).1) * (ccdTrace epsilonFactor gen j).2)) *
            epsilonFactor) := by
      show (ccdStep epsilonFactor (gen j) (ccdTrace epsilonFactor gen j)).2 = _
      simp [ccdStep, filterContacts_of_some _ ht0]
    have hbody : ccdLoop epsilonFactor gen (m + 1 + 1) (stateAt epsilonFactor gen j) =
        ccdLoop epsilonFactor gen (m + 1) (stateAt epsilonFactor gen (j + 1)) := by
      simp only [ccdLoop, stateAt, filterContacts_of_some _ ht0]
      simp only [Bool.true_eq_false, if_false, Option.getD_some, if_neg (not_lt.mpr hle)]
      congr 1
      simp [stateAt, htoi, hlocal]
    calc ccdLoop epsilonFactor gen (m + 1 + 1) (stateAt epsilonFactor gen j)
        = ccdLoop epsilonFactor gen (m + 1) (stateAt epsilonFactor gen (j + 1)) := hbody
      _ = ⟨0, stateAt epsilonFactor gen (j + 1 + m), ExitReason.budget⟩ :=
          ih (j + 1) (fun k hk => hC k (by omega)) (fun k hk => hT k (by omega))
      _ = ⟨0, stateAt epsilonFactor gen (j + (m + 1)), ExitReason.budget⟩ := by
          rw [show j + 1 + m = j + (m + 1) by omega]

/-- C2 (amended): when every reachable iteration's narrow-phase produces at
least one contact and the accumulated toi never exceeds 1 at the checks, the
`while (--iterations > 0)` loop executes its body exactly
`maxIterations - 1` times (not `maxIterations`), terminates by budget
exhaustion, and then logs the maxed-out-iterations warning
(`iterations == 0`). -/
theorem claim2_budget_exhaustion (epsilonFactor : ℚ) (gen : ℕ → PairContacts) (n : ℕ)
    (h1 : 1 ≤ n)
    (hC : ∀ k, k < n - 1 → minContactTime (gen k) ≠ none)
    (hT : ∀ k, k ≤ n - 1 → (ccdTrace epsilonFactor gen k).1 ≤ 1) :
    ccdLoop epsilonFactor gen n initState =
      ⟨0, stateAt epsilonFactor gen (n - 1), ExitReason.budget⟩ ∧
    (ccdLoop epsilonFactor gen n initState).state.bodyRuns = n - 1 ∧
    warningLogged (ccdLoop epsilonFactor gen n initState) = true := by
  have hinit : stateAt epsilonFactor gen 0 = initState := rfl
  have hmain : ccdLoop epsilonFactor gen n initState =
      ⟨0, stateAt epsilonFactor gen (n - 1), ExitReason.budget⟩ := by
    have := ccdLoop_budget_aux epsilonFactor gen (n - 1) 0
      (fun k hk => hC k (by omega)) (fun k hk => hT k (by omega))
    rw [hinit, show n - 1 + 1 = n by omega] at this
    simpa using this
  refine ⟨hmain, ?_, ?_⟩
  · rw [hmain]; rfl
  · rw [hmain]; rfl

/-- C2 witness: twenty iterations of budget with a contact at time 0 every
iteration run the body nineteen times and log the warning. -/
theorem claim2_witness :
    ccdLoop 100 genBudget 20 initState =
      ⟨0, stateAt 100 genBudget 19, ExitReason.budget⟩ ∧
    (ccdLoop 100 genBudget 20 initState).state.bodyRuns = 19 ∧
    warningLogged (ccdLoop 100 genBudget 20 initState) = true :=
  claim2_budget_exhaustion 100 genBudget 20 (by norm_num)
    (fun k _ => genBudget_contacts k) (fun k hk => genBudget_toi_le k (by omega))

/-- C2 counterexample to the claim as stated: with `maxIterations = 20` and
a narrow-phase producing one contact every iteration (times all 0, so the
accumulated toi stays far below 1), the loop body executes 19 times, not the
claimed 20. -/
theorem claim2_counterexample :
    (∀ k, k < 20 - 1 → minContactTime (genBudget k) ≠ none) ∧
    (∀ k, k ≤ 20 - 1 → (ccdTrace 100 genBudget k).1 ≤ 1) ∧
    (ccdLoop 100 genBudget 20 initState).state.bodyRuns = 19 ∧
    ¬ (ccdLoop 100 genBudget 20 initState).state.bodyRuns = 20 := by
  have hrun : ccdLoop 100 genBudget 20 initState =
      ⟨0, stateAt 100 genBudget 19, ExitReason.budget⟩ := by
    have h := ccdLoop_budget_aux 100 genBudget 19 0
      (fun k _ => genBudget_contacts k) (fun k hk => genBudget_toi_le k (by omega))
    simpa using h
  refine ⟨fun k _ => genBudget_contacts k, fun k hk => genBudget_toi_le k (by omega), ?_, ?_⟩
  · rw [hrun]; rfl
  · rw [hrun]; simp [stateAt]

end Physics

namespace Collision

/-- A `foldl` preserves any invariant its step preserves. -/
lemma foldl_inv {α σ : Type*} (F : σ → α → σ) (Inv : σ → Prop) :
    ∀ (l : List α) (s : σ), Inv s → (∀ x t, x ∈ l → Inv t → Inv (F t x)) →
      Inv (l.foldl F s) := by
  intro l
  induction l with
  | nil => intro s h _; simpa using h
  | cons x rest ih =>
    intro s h hstep
    rw [List.foldl_cons]
    exact ih (F s x) (hstep x s (List.mem_cons_self x rest) h)
      (fun y t hy ht => hstep y t (List.mem_cons_of_mem x hy) ht)

lemma pickBest_nil (acc : Option CcdCandidate) : pickBest acc [] = acc := rfl

lemma pickBest_cons_none (acc : Option CcdCandidate) (rest : List (Option CcdCandidate)) :
    pickBest acc (none :: rest) = pickBest acc rest := rfl

lemma pickBest_cons_some_none (e : CcdCandidate) (rest : List (Option CcdCandidate)) :
    pickBest none (some e :: rest) = pickBest (some e) rest := rfl

lemma pickBest_cons_some_some (b e : CcdCandidate) (rest : List (Option CcdCandidate)) :
    pickBest (some b) (some e :: rest) =
      pickBest (if e.time < b.time then some e else some b) rest := rfl

lemma pickBest_eq_none_iff :
    ∀ (l : List (Option CcdCandidate)) (acc : Option CcdCandidate),
      pickBest acc l = none ↔ acc = none ∧ ∀ s ∈ l, s = none := by
  intro l
  induction l with
  | nil => intro acc; simp [pickBest_nil]
  | cons o rest ih =>
    intro acc
    cases o with
    | none => simp [pickBest_cons_none, ih]
    | some e =>
      cases acc with
      | none =>
        rw [pickBest_cons_some_none, ih]
        simp
      | some b =>
        rw [pickBest_cons_some_some]
        by_cases he : e.time < b.time
        · rw [if_pos he, ih]
          simp
        · rw [if_neg he, ih]
          simp

/-- If the accumulator holds `b` and the chain ends on `c`, then `c` is `b`
itself or a strictly better reported candidate, with every reported
candidate before it strictly worse than `c`. -/
lemma pickBest_some_acc :
    ∀ (l : List (Option CcdCandidate)) (b c : CcdCandidate),
      pickBest (some b) l = some c →
        c = b ∨ ∃ l1 l2, l = l1 ++ some c :: l2 ∧ c.time < b.time ∧
          ∀ d, some d ∈ l1 → c.time < d.time := by
  intro l
  induction l with
  | nil =>
    intro b c h
    rw [pickBest_nil] at h
    exact Or.inl (Option.some.inj h).symm
  | cons o rest ih =>
    intro b c h
    cases o with
    | none =>
      rw [pickBest_cons_none] at h
      rcases ih b c h with h1 | ⟨l1, l2, hsplit, hlt, hall⟩
      · exact Or.inl h1
      · refine Or.inr ⟨none :: l1, l2, by rw [hsplit]; rfl, hlt, ?_⟩
        intro d hd
        rcases List.mem_cons.mp hd with h' | h'
        · cases h'
        · exact hall d h'
    | some e =>
      rw [pickBest_cons_some_some] at h
      by_cases he : e.time < b.time
      · rw [if_pos he] at h
        rcases ih e c h with h1 | ⟨l1, l2, hsplit, hlt, hall⟩
        · subst h1
          refine Or.inr ⟨[], rest, rfl, he, ?_⟩
          intro d hd
          cases hd
        · refine Or.inr ⟨some e :: l1, l2, by rw [hsplit]; rfl, lt_trans hlt he, ?_⟩
          intro d hd
          rcases List.mem_cons.mp hd with h' | h'
          · rw [Option.some.inj h']
            exact hlt
          · exact hall d h'
      · rw [if_neg he] at h
        rcases ih b c h with h1 | ⟨l1, l2, hsplit, hlt, hall⟩
        · exact Or.inl h1
        · refine Or.inr ⟨some e :: l1, l2, by rw [hsplit]; rfl, hlt, ?_⟩
          intro d hd
          rcases List.mem_cons.mp hd with h' | h'
          · rw [Option.some.inj h']
            exact lt_of_lt_of_le hlt (not_lt.mp he)
          · exact hall d h'

/-- The winner of the chain started empty is the first reported candidate
attaining the minimum: every reported candidate before it has a strictly
later time. -/
lemma pickBest_first_wins :
    ∀ (l : List (Option CcdCandidate)) (c : CcdCandidate),
      pickBest none l = some c →
        ∃ l1 l2, l = l1 ++ some c :: l2 ∧ ∀ d, some d ∈ l1 → c.time < d.time := by
  intro l
  induction l with
  | nil => intro c h; rw [pickBest_nil] at h; cases h
  | cons o rest ih =>
    intro c h
    cases o with
    | none =>
      rw [pickBest_cons_none] at h
      obtain ⟨l1, l2, hsplit, hall⟩ := ih c h
      refine ⟨none :: l1, l2, by rw [hsplit]; rfl, ?_⟩
      intro d hd
      rcases List.mem_cons.mp hd with h' | h'
      · cases h'
      · exact hall d h'
    | some e =>
      rw [pickBest_cons_some_none] at h
      rcases pickBest_some_acc rest e c h with h1 | ⟨l1, l2, hsplit, hlt, hall⟩
      · subst h1
        refine ⟨[], rest, rfl, ?_⟩
        intro d hd
        cases hd
      · refine ⟨some e :: l1, l2, by rw [hsplit]; rfl, ?_⟩
        intro d hd
        rcases List.mem_cons.mp hd with h' | h'
        · rw [Option.some.inj h']
          exact hlt
        · exact hall d h'

/-- The winner's time is a lower bound of every reported candidate's time
(and of the accumulator's). -/
lemma pickBest_min :
    ∀ (l : List (Option CcdCandidate)) (acc : Option CcdCandidate) (c : CcdCandidate),
      pickBest acc l = some c →
        (∀ d, some d ∈ l → c.time ≤ d.time) ∧
          (∀ b, acc = some b → c.time ≤ b.time) := by
  intro l
  induction l with
  | nil =>
    intro acc c h
    rw [pickBest_nil] at h
    constructor
    · intro d hd
      cases hd
    · intro b hb
      rw [hb] at h
      rw [Option.some.inj h]
  | cons o rest ih =>
    intro acc c h
    cases o with
    | none =>
      rw [pickBest_cons_none] at h
      obtain ⟨h1, h2⟩ := ih acc c h
      refine ⟨?_, h2⟩
      intro d hd
      rcases List.mem_cons.mp hd with h' | h'
      · cases h'
      · exact h1 d h'
    | some e =>
      cases acc with
      | none =>
        rw [pickBest_cons_some_none] at h
        obtain ⟨h1, h2⟩ := ih (some e) c h
        refine ⟨?_, by intro b hb; cases hb⟩
        intro d hd
        rcases List.mem_cons.mp hd with h' | h'
        · rw [Option.some.inj h']
          exact h2 e rfl
        · exact h1 d h'
      | some b =>
        rw [pickBest_cons_some_some] at h
        by_cases he : e.time < b.time
        · rw [if_pos he] at h
          obtain ⟨h1, h2⟩ := ih (some e) c h
          refine ⟨?_, ?_⟩
          · intro d hd
            rcases List.mem_cons.mp hd with h' | h'
            · rw [Option.some.inj h']
              exact h2 e rfl
            · exact h1 d h'
          · intro b' hb'
            rw [← Option.some.inj hb']
            exact le_of_lt (lt_of_le_of_lt (h2 e rfl) he)
        · rw [if_neg he] at h
          obtain ⟨h1, h2⟩ := ih (some b) c h
          refine ⟨?_, ?_⟩
          · intro d hd
            rcases List.mem_cons.mp hd with h' | h'
            · rw [Option.some.inj h']
              exact le_trans (h2 b rfl) (not_lt.mp he)
            · exact h1 d h'
          · intro b' hb'
            rw [← Option.some.inj hb']
            exact h2 b rfl

/-- The winner comes from one of the slots. -/
lemma pickBest_mem (l : List (Option CcdCandidate)) (c : CcdCandidate)
    (h : pickBest none l = some c) : some c ∈ l := by
  obtain ⟨l1, l2, hsplit, _⟩ := pickBest_first_wins l c h
  rw [hsplit]
  exact List.mem_append.mpr (Or.inr (List.mem_cons_self _ _))

/-- Every reported slot carries the (untransformed) time reported by its
root-finder; under the spec's contract those lie in [0,1]. -/
lemma ccdSlots_time_bound (o : CcdOracles)
    (hseg : ∀ a b u v r, o.calculateCcdContactSegmentSegment a b u v = some r →
      0 ≤ r.1 ∧ r.1 ≤ 1)
    (hpt : ∀ a b u v r, o.calculateCcdContactPointTriangle a b u v = some r →
      0 ≤ r.1 ∧ r.1 ≤ 1)
    (t1v0 t1v1 t1v2 t2v0 t2v1 t2v2 : Vec3 × Vec3) :
    ∀ w, some w ∈ ccdSlots o t1v0 t1v1 t1v2 t2v0 t2v1 t2v2 →
      0 ≤ w.time ∧ w.time ≤ 1 := by
  intro w hw
  simp only [ccdSlots, List.mem_cons, List.not_mem_nil, or_false] at hw
  rcases hw with h|h|h|h|h|h|h|h|h|h|h|h|h|h|h <;>
    obtain ⟨r, hr, hwr⟩ := Option.map_eq_some'.mp h.symm <;>
    rw [← hwr] <;>
    first
      | exact hseg _ _ _ _ _ hr
      | exact hpt _ _ _ _ _ hr

lemma emitCcdContact_time (pose2AtTime1 : RigidTransform) (triangleId : ℕ)
    (t1v0 t1v1 t1v2 t2v0 t2v1 t2v2 : Vec3 × Vec3) (cand : CcdCandidate) :
    (emitCcdContact pose2AtTime1 triangleId t1v0 t1v1 t1v2 t2v0 t2v1 t2v2 cand).time =
      cand.time := rfl

/-- Branch characterizations of one candidate pair's contact list. -/
lemma ccdTrianglePair_fst_pruned (o : CcdOracles) (pose2AtTime1 : RigidTransform)
    (triangleId : ℕ) (t1v0 t1v1 t1v2 t2v0 t2v1 t2v2 : Vec3 × Vec3)
    (hprune : ¬ doAabbIntersect (aabbOfSix t1v0.1 t1v0.2 t1v1.1 t1v1.2 t1v2.1 t1v2.2)
      (aabbOfSix t2v0.1 t2v0.2 t2v1.1 t2v1.2 t2v2.1 t2v2.2)) :
    (ccdTrianglePair o pose2AtTime1 triangleId t1v0 t1v1 t1v2 t2v0 t2v1 t2v2).1 = [] := by
  simp [ccdTrianglePair, hprune]

lemma ccdTrianglePair_fst_overlap (o : CcdOracles) (pose2AtTime1 : RigidTransform)
    (triangleId : ℕ) (t1v0 t1v1 t1v2 t2v0 t2v1 t2v2 : Vec3 × Vec3)
    (hprune : doAabbIntersect (aabbOfSix t1v0.1 t1v0.2 t1v1.1 t1v1.2 t1v2.1 t1v2.2)
      (aabbOfSix t2v0.1 t2v0.2 t2v1.1 t2v1.2 t2v2.1 t2v2.2))
    (hd : (o.distanceTriangleTriangle t1v0.1 t1v1.1 t1v2.1 t2v0.1 t2v1.1 t2v2.1).1 ≤ 0) :
    (ccdTrianglePair o pose2AtTime1 triangleId t1v0 t1v1 t1v2 t2v0 t2v1 t2v2).1 =
      [emitCcdContact pose2AtTime1 triangleId t1v0 t1v1 t1v2 t2v0 t2v1 t2v2
        (overlapCand o t1v0 t1v1 t1v2 t2v0 t2v1 t2v2)] := by
  simp [ccdTrianglePair, hprune, hd]

lemma ccdTrianglePair_fst_noroot (o : CcdOracles) (pose2AtTime1 : RigidTransform)
    (triangleId : ℕ) (t1v0 t1v1 t1v2 t2v0 t2v1 t2v2 : Vec3 × Vec3)
    (hprune : doAabbIntersect (aabbOfSix t1v0.1 t1v0.2 t1v1.1 t1v1.2 t1v2.1 t1v2.2)
      (aabbOfSix t2v0.1 t2v0.2 t2v1.1 t2v1.2 t2v2.1 t2v2.2))
    (hd : ¬ (o.distanceTriangleTriangle t1v0.1 t1v1.1 t1v2.1 t2v0.1 t2v1.1 t2v2.1).1 ≤ 0)
    (hpb : pickBest none (ccdSlots o t1v0 t1v1 t1v2 t2v0 t2v1 t2v2) = none) :
    (ccdTrianglePair o pose2AtTime1 triangleId t1v0 t1v1 t1v2 t2v0 t2v1 t2v2).1 = [] := by
  simp [ccdTrianglePair, hprune, hd, hpb]

lemma ccdTrianglePair_fst_winner (o : CcdOracles) (pose2AtTime1 : RigidTransform)
    (triangleId : ℕ) (t1v0 t1v1 t1v2 t2v0 t2v1 t2v2 : Vec3 × Vec3) (w : CcdCandidate)
    (hprune : doAabbIntersect (aabbOfSix t1v0.1 t1v0.2 t1v1.1 t1v1.2 t1v2.1 t1v2.2)
      (aabbOfSix t2v0.1 t2v0.2 t2v1.1 t2v1.2 t2v2.1 t2v2.2))
    (hd : ¬ (o.distanceTriangleTriangle t1v0.1 t1v1.1 t1v2.1 t2v0.1 t2v1.1 t2v2.1).1 ≤ 0)
    (hpb : pickBest none (ccdSlots o t1v0 t1v1 t1v2 t2v0 t2v1 t2v2) = some w) :
    (ccdTrianglePair o pose2AtTime1 triangleId t1v0 t1v1 t1v2 t2v0 t2v1 t2v2).1 =
      [emitCcdContact pose2AtTime1 triangleId t1v0 t1v1 t1v2 t2v0 t2v1 t2v2 w] := by
  simp [ccdTrianglePair, hprune, hd, hpb]

/-- The warning count of one candidate pair is at least 1 when the first
triangle's t0 normal is degenerate (and the pair passed the prune). -/
lemma ccdTrianglePair_snd_warns (o : CcdOracles) (pose2AtTime1 : RigidTransform)
    (triangleId : ℕ) (t1v0 t1v1 t1v2 t2v0 t2v1 t2v2 : Vec3 × Vec3)
    (hprune : doAabbIntersect (aabbOfSix t1v0.1 t1v0.2 t1v1.1 t1v1.2 t1v2.1 t1v2.2)
      (aabbOfSix t2v0.1 t2v0.2 t2v1.1 t2v1.2 t2v2.1 t2v2.2))
    (hdeg : (((t1v1.1).sub t1v0.1).cross ((t1v2.1).sub t1v0.1)).norm < DistanceEpsilon) :
    1 ≤ (ccdTrianglePair o pose2AtTime1 triangleId t1v0 t1v1 t1v2 t2v0 t2v1 t2v2).2 := by
  by_cases hd : (o.distanceTriangleTriangle t1v0.1 t1v1.1 t1v2.1 t2v0.1 t2v1.1 t2v2.1).1 ≤ 0
  · simp only [ccdTrianglePair, if_pos hprune, if_pos hd, if_pos hdeg]
    omega
  · rcases hpb : pickBest none (ccdSlots o t1v0 t1v1 t1v2 t2v0 t2v1 t2v2) with _ | w <;>
      simp only [ccdTrianglePair, if_pos hprune, if_neg hd, if_pos hdeg, hpb] <;>
      omega

/-- Every contact one candidate pair emits has its time in [0,1] when the
root-finders only report roots in [0,1]. -/
lemma ccdTrianglePair_time_bounds (o : CcdOracles)
    (hseg : ∀ a b u v r, o.calculateCcdContactSegmentSegment a b u v = some r →
      0 ≤ r.1 ∧ r.1 ≤ 1)
    (hpt : ∀ a b u v r, o.calculateCcdContactPointTriangle a b u v = some r →
      0 ≤ r.1 ∧ r.1 ≤ 1)
    (pose2AtTime1 : RigidTransform) (triangleId : ℕ)
    (t1v0 t1v1 t1v2 t2v0 t2v1 t2v2 : Vec3 × Vec3) :
    ∀ c ∈ (ccdTrianglePair o pose2AtTime1 triangleId t1v0 t1v1 t1v2 t2v0 t2v1 t2v2).1,
      0 ≤ c.time ∧ c.time ≤ 1 := by
  intro c hc
  by_cases hprune : doAabbIntersect (aabbOfSix t1v0.1 t1v0.2 t1v1.1 t1v1.2 t1v2.1 t1v2.2)
      (aabbOfSix t2v0.1 t2v0.2 t2v1.1 t2v1.2 t2v2.1 t2v2.2)
  · by_cases hd :
        (o.distanceTriangleTriangle t1v0.1 t1v1.1 t1v2.1 t2v0.1 t2v1.1 t2v2.1).1 ≤ 0
    · rw [ccdTrianglePair_fst_overlap o pose2AtTime1 triangleId
        t1v0 t1v1 t1v2 t2v0 t2v1 t2v2 hprune hd] at hc
      simp only [List.mem_singleton] at hc
      subst hc
      rw [emitCcdContact_time]
      norm_num [overlapCand]
    · rcases hpb : pickBest none (ccdSlots o t1v0 t1v1 t1v2 t2v0 t2v1 t2v2) with _ | w
      · rw [ccdTrianglePair_fst_noroot o pose2AtTime1 triangleId
          t1v0 t1v1 t1v2 t2v0 t2v1 t2v2 hprune hd hpb] at hc
        simp at hc
      · rw [ccdTrianglePair_fst_winner o pose2AtTime1 triangleId
          t1v0 t1v1 t1v2 t2v0 t2v1 t2v2 w hprune hd hpb] at hc
        simp only [List.mem_singleton] at hc
        subst hc
        have hw := ccdSlots_time_bound o hseg hpt t1v0 t1v1 t1v2 t2v0 t2v1 t2v2 w
          (pickBest_mem _ _ hpb)
        rw [emitCcdContact_time]
        exact hw
  · rw [ccdTrianglePair_fst_pruned o pose2AtTime1 triangleId
      t1v0 t1v1 t1v2 t2v0 t2v1 t2v2 hprune] at hc
    simp at hc

lemma ccdInnerLoop_time_bounds (o : CcdOracles)
    (hseg : ∀ a b u v r, o.calculateCcdContactSegmentSegment a b u v = some r →
      0 ≤ r.1 ∧ r.1 ≤ 1)
    (hpt : ∀ a b u v r, o.calculateCcdContactPointTriangle a b u v = some r →
      0 ≤ r.1 ∧ r.1 ≤ 1)
    (pose2AtTime1 : RigidTransform) (shape2AtTime0 shape2AtTime1 : MeshShape)
    (t1v0 t1v1 t1v2 : Vec3 × Vec3) (acc : List Contact × ℕ)
    (hacc : ∀ c ∈ acc.1, 0 ≤ c.time ∧ c.time ≤ 1) :
    ∀ c ∈ (ccdInnerLoop o pose2AtTime1 shape2AtTime0 shape2AtTime1
        t1v0 t1v1 t1v2 acc).1, 0 ≤ c.time ∧ c.time ≤ 1 := by
  refine foldl_inv _ (fun p : List Contact × ℕ => ∀ c ∈ p.1, 0 ≤ c.time ∧ c.time ≤ 1)
    (List.range shape2AtTime0.numTriangles) acc hacc ?_
  intro x t _ ht
  intro c hc
  simp only [List.mem_append] at hc
  rcases hc with hc | hc
  · exact ht c hc
  · exact ccdTrianglePair_time_bounds o hseg hpt pose2AtTime1 x _ _ _ _ _ _ c hc

lemma calculateCcdContact_time_bounds (o : CcdOracles)
    (hseg : ∀ a b u v r, o.calculateCcdContactSegmentSegment a b u v = some r →
      0 ≤ r.1 ∧ r.1 ≤ 1)
    (hpt : ∀ a b u v r, o.calculateCcdContactPointTriangle a b u v = some r →
      0 ≤ r.1 ∧ r.1 ≤ 1)
    (shape1AtTime0 : MeshShape) (pose1AtTime0 : RigidTransform)
    (shape1AtTime1 : MeshShape) (pose1AtTime1 : RigidTransform)
    (shape2AtTime0 : MeshShape) (pose2AtTime0 : RigidTransform)
    (shape2AtTime1 : MeshShape) (pose2AtTime1 : RigidTransform) :
    ∀ c ∈ (calculateCcdContact o shape1AtTime0 pose1AtTime0 shape1AtTime1 pose1AtTime1
        shape2AtTime0 pose2AtTime0 shape2AtTime1 pose2AtTime1).1,
      0 ≤ c.time ∧ c.time ≤ 1 := by
  refine foldl_inv _ (fun p : List Contact × ℕ => ∀ c ∈ p.1, 0 ≤ c.time ∧ c.time ≤ 1)
    (List.range shape1AtTime0.numTriangles) ([], 0) (by simp) ?_
  intro x t _ ht
  exact ccdInnerLoop_time_bounds o hseg hpt pose2AtTime1 shape2AtTime0 shape2AtTime1
    _ _ _ t ht

lemma dcdTriangleB_bounds (o : DcdOracles) (meshA meshB : MeshShape)
    (poseA poseB : RigidTransform) (i j : ℕ) :
    ∀ c ∈ dcdTriangleB o meshA meshB poseA poseB i j, 0 ≤ c.depth ∧ c.time = 1 := by
  intro c hc
  simp only [dcdTriangleB] at hc
  split_ifs at hc with h
  · simp at hc
  · split at hc
    · simp at hc
    · simp only [List.mem_singleton] at hc
      subst hc
      exact ⟨abs_nonneg _, rfl⟩

lemma dcdTriangleA_bounds (o : DcdOracles) (meshA meshB : MeshShape)
    (poseA poseB : RigidTransform) (i : ℕ) (listB : List ℕ) :
    ∀ c ∈ dcdTriangleA o meshA meshB poseA poseB i listB,
      0 ≤ c.depth ∧ c.time = 1 := by
  intro c hc
  simp only [dcdTriangleA] at hc
  split_ifs at hc
  · simp at hc
  · revert hc
    refine foldl_inv _ (fun l : List Contact => ∀ c ∈ l, 0 ≤ c.depth ∧ c.time = 1)
      listB [] (by simp) ?_ c
    intro x t _ ht
    intro c hc
    simp only [List.mem_append] at hc
    rcases hc with hc | hc
    · exact ht c hc
    · exact dcdTriangleB_bounds o meshA meshB poseA poseB i x c hc

lemma calculateDcdContact_bounds (o : DcdOracles) (meshA : MeshShape)
    (poseA : RigidTransform) (meshB : MeshShape) (poseB : RigidTransform)
    (intersectionList : List (List ℕ × List ℕ)) :
    ∀ c ∈ calculateDcdContact o meshA poseA meshB poseB intersectionList,
      0 ≤ c.depth ∧ c.time = 1 := by
  refine foldl_inv _ (fun l : List Contact => ∀ c ∈ l, 0 ≤ c.depth ∧ c.time = 1)
    intersectionList [] (by simp) ?_
  intro np t _ ht
  intro c hc
  simp only [List.mem_append] at hc
  rcases hc with hc | hc
  · exact ht c hc
  · revert hc
    refine foldl_inv _ (fun l : List Contact => ∀ c ∈ l, 0 ≤ c.depth ∧ c.time = 1)
      np.1 [] (by simp) ?_ c
    intro x t' _ ht'
    intro c hc
    simp only [List.mem_append] at hc
    rcases hc with hc | hc
    · exact ht' c hc
    · exact dcdTriangleA_bounds o meshA meshB poseA poseB x np.2 c hc

lemma cexPrune : doAabbIntersect
    (aabbOfSix t1v0Cex.1 t1v0Cex.2 t1v1Cex.1 t1v1Cex.2 t1v2Cex.1 t1v2Cex.2)
    (aabbOfSix t2v0Cex.1 t2v0Cex.2 t2v1Cex.1 t2v1Cex.2 t2v2Cex.1 t2v2Cex.2) := by
  norm_num [t1v0Cex, t1v1Cex, t1v2Cex, t2v0Cex, t2v1Cex, t2v2Cex, aabbOfSix, Aabb.ofPoint,
    Aabb.extend, doAabbIntersect, min_def, max_def]

lemma cexDegenerate :
    (((t1v1Cex.1).sub t1v0Cex.1).cross ((t1v2Cex.1).sub t1v0Cex.1)).norm <
      DistanceEpsilon := by
  have h : ((t1v1Cex.1).sub t1v0Cex.1).cross ((t1v2Cex.1).sub t1v0Cex.1) = ⟨0, 0, 0⟩ := by
    norm_num [t1v0Cex, t1v1Cex, t1v2Cex, Vec3.sub, Vec3.cross]
  rw [h]
  have h2 : Vec3.norm ⟨0, 0, 0⟩ = 0 := by
    norm_num [Vec3.norm, Vec3.dot, Real.sqrt_zero]
  rw [h2, DistanceEpsilon]
  norm_num

lemma cexNotDegenerate2 :
    ¬ (((t2v1Cex.1).sub t2v0Cex.1).cross ((t2v2Cex.1).sub t2v0Cex.1)).norm <
      DistanceEpsilon := by
  have h : ((t2v1Cex.1).sub t2v0Cex.1).cross ((t2v2Cex.1).sub t2v0Cex.1) = ⟨0, 0, 1⟩ := by
    norm_num [t2v0Cex, t2v1Cex, t2v2Cex, Vec3.sub, Vec3.cross]
  rw [h]
  have h2 : Vec3.norm ⟨0, 0, 1⟩ = 1 := by
    have : Vec3.dot ⟨0, 0, 1⟩ ⟨0, 0, 1⟩ = 1 := by norm_num [Vec3.dot]
    rw [Vec3.norm, this, Real.sqrt_one]
  rw [h2, DistanceEpsilon]
  norm_num

lemma cexNoOverlap :
    ¬ (oCex.distanceTriangleTriangle t1v0Cex.1 t1v1Cex.1 t1v2Cex.1
        t2v0Cex.1 t2v1Cex.1 t2v2Cex.1).1 ≤ 0 := by
  norm_num [oCex]

/-- C6 (amended): in `calculateDcdContact` a triangle whose cached normal is
zero is skipped before any triangle-triangle test, on either side (its
result is empty for every primitive oracle); in `calculateCcdContact` a
candidate pair (past the AABB prune) whose first triangle has a degenerate
t0 cross-product normal logs the degenerate-triangle warning — but is not
excluded from contact generation (the counterexample exhibits such a pair
emitting a contact). -/
theorem claim6_degenerate_policy :
    (∀ (o : DcdOracles) (meshA meshB : MeshShape) (poseA poseB : RigidTransform)
        (i : ℕ) (listB : List ℕ), meshA.normals i = Vec3.zero →
      dcdTriangleA o meshA meshB poseA poseB i listB = []) ∧
    (∀ (o : DcdOracles) (meshA meshB : MeshShape) (poseA poseB : RigidTransform)
        (i j : ℕ), meshB.normals j = Vec3.zero →
      dcdTriangleB o meshA meshB poseA poseB i j = []) ∧
    (∀ (o : CcdOracles) (pose2AtTime1 : RigidTransform) (triangleId : ℕ)
        (t1v0 t1v1 t1v2 t2v0 t2v1 t2v2 : Vec3 × Vec3),
      doAabbIntersect (aabbOfSix t1v0.1 t1v0.2 t1v1.1 t1v1.2 t1v2.1 t1v2.2)
          (aabbOfSix t2v0.1 t2v0.2 t2v1.1 t2v1.2 t2v2.1 t2v2.2) →
      (((t1v1.1).sub t1v0.1).cross ((t1v2.1).sub t1v0.1)).norm < DistanceEpsilon →
      1 ≤ (ccdTrianglePair o pose2AtTime1 triangleId t1v0 t1v1 t1v2 t2v0 t2v1 t2v2).2) := by
  refine ⟨?_, ?_, ?_⟩
  · intro o meshA meshB poseA poseB i listB h
    simp [dcdTriangleA, h]
  · intro o meshA meshB poseA poseB i j h
    simp [dcdTriangleB, h]
  · intro o pose2AtTime1 triangleId t1v0 t1v1 t1v2 t2v0 t2v1 t2v2 hprune hdeg
    exact ccdTrianglePair_snd_warns o pose2AtTime1 triangleId
      t1v0 t1v1 t1v2 t2v0 t2v1 t2v2 hprune hdeg

/-- C6 witness: a zero cached normal skips the triangle in the DCD path on
either side, and the degenerate concrete CCD pair logs a warning. -/
theorem claim6_witness :
    dcdTriangleA oDcdCex meshZeroNormalsCex meshUnitNormalCex idRigid idRigid 0 [0] = [] ∧
    dcdTriangleB oDcdCex meshUnitNormalCex meshZeroNormalsCex idRigid idRigid 0 0 = [] ∧
    1 ≤ (ccdTrianglePair oCex idRigid 0 t1v0Cex t1v1Cex t1v2Cex
      t2v0Cex t2v1Cex t2v2Cex).2 := by
  refine ⟨?_, ?_, ?_⟩
  · exact claim6_degenerate_policy.1 oDcdCex meshZeroNormalsCex meshUnitNormalCex
      idRigid idRigid 0 [0] rfl
  · exact claim6_degenerate_policy.2.1 oDcdCex meshUnitNormalCex meshZeroNormalsCex
      idRigid idRigid 0 0 rfl
  · exact claim6_degenerate_policy.2.2 oCex idRigid 0 t1v0Cex t1v1Cex t1v2Cex
      t2v0Cex t2v1Cex t2v2Cex cexPrune cexDegenerate

/-- C8: for a candidate pair past the swept-AABB prune: a t0 overlap gives
contact time 0 and a result independent of the swept-test oracles; otherwise
no contact is emitted exactly when no test reports a root, and an emitted
contact carries the minimum reported time with the coordinates of the first
test (in evaluation order) attaining it. -/
theorem claim8_earliest_selection (o : CcdOracles) (pose2AtTime1 : RigidTransform)
    (triangleId : ℕ) (t1v0 t1v1 t1v2 t2v0 t2v1 t2v2 : Vec3 × Vec3)
    (hprune : doAabbIntersect (aabbOfSix t1v0.1 t1v0.2 t1v1.1 t1v1.2 t1v2.1 t1v2.2)
      (aabbOfSix t2v0.1 t2v0.2 t2v1.1 t2v1.2 t2v2.1 t2v2.2)) :
    ((o.distanceTriangleTriangle t1v0.1 t1v1.1 t1v2.1 t2v0.1 t2v1.1 t2v2.1).1 ≤ 0 →
      (∀ c ∈ (ccdTrianglePair o pose2AtTime1 triangleId t1v0 t1v1 t1v2 t2v0 t2v1 t2v2).1,
        c.time = 0) ∧
      (∀ o' : CcdOracles,
        o'.distanceTriangleTriangle = o.distanceTriangleTriangle →
        o'.barycentricCoordinates = o.barycentricCoordinates →
        (ccdTrianglePair o' pose2AtTime1 triangleId t1v0 t1v1 t1v2 t2v0 t2v1 t2v2).1 =
          (ccdTrianglePair o pose2AtTime1 triangleId t1v0 t1v1 t1v2 t2v0 t2v1 t2v2).1)) ∧
    (¬ (o.distanceTriangleTriangle t1v0.1 t1v1.1 t1v2.1 t2v0.1 t2v1.1 t2v2.1).1 ≤ 0 →
      (((ccdTrianglePair o pose2AtTime1 triangleId t1v0 t1v1 t1v2 t2v0 t2v1 t2v2).1 = [] ↔
        ∀ s ∈ ccdSlots o t1v0 t1v1 t1v2 t2v0 t2v1 t2v2, s = none) ∧
      (∀ w, pickBest none (ccdSlots o t1v0 t1v1 t1v2 t2v0 t2v1 t2v2) = some w →
        (ccdTrianglePair o pose2AtTime1 triangleId t1v0 t1v1 t1v2 t2v0 t2v1 t2v2).1 =
          [emitCcdContact pose2AtTime1 triangleId t1v0 t1v1 t1v2 t2v0 t2v1 t2v2 w] ∧
        some w ∈ ccdSlots o t1v0 t1v1 t1v2 t2v0 t2v1 t2v2 ∧
        (∀ d, some d ∈ ccdSlots o t1v0 t1v1 t1v2 t2v0 t2v1 t2v2 → w.time ≤ d.time) ∧
        ∃ l1 l2, ccdSlots o t1v0 t1v1 t1v2 t2v0 t2v1 t2v2 = l1 ++ some w :: l2 ∧
          ∀ d, some d ∈ l1 → w.time < d.time))) := by
  constructor
  · intro hd
    constructor
    · intro c hc
      rw [ccdTrianglePair_fst_overlap o pose2AtTime1 triangleId
        t1v0 t1v1 t1v2 t2v0 t2v1 t2v2 hprune hd] at hc
      simp only [List.mem_singleton] at hc
      subst hc
      rw [emitCcdContact_time]
      rfl
    · intro o' hdist hbary
      have hd' : (o'.distanceTriangleTriangle t1v0.1 t1v1.1 t1v2.1
          t2v0.1 t2v1.1 t2v2.1).1 ≤ 0 := by rw [hdist]; exact hd
      rw [ccdTrianglePair_fst_overlap o' pose2AtTime1 triangleId
        t1v0 t1v1 t1v2 t2v0 t2v1 t2v2 hprune hd',
        ccdTrianglePair_fst_overlap o pose2AtTime1 triangleId
        t1v0 t1v1 t1v2 t2v0 t2v1 t2v2 hprune hd]
      simp [overlapCand, hdist, hbary]
  · intro hd
    constructor
    · constructor
      · intro hempty
        rcases hpb : pickBest none (ccdSlots o t1v0 t1v1 t1v2 t2v0 t2v1 t2v2) with _ | w
        · exact fun s hs => ((pickBest_eq_none_iff _ none).mp hpb).2 s hs
        · rw [ccdTrianglePair_fst_winner o pose2AtTime1 triangleId
            t1v0 t1v1 t1v2 t2v0 t2v1 t2v2 w hprune hd hpb] at hempty
          cases hempty
      · intro hall
        have hpb : pickBest none (ccdSlots o t1v0 t1v1 t1v2 t2v0 t2v1 t2v2) = none :=
          (pickBest_eq_none_iff _ none).mpr ⟨rfl, hall⟩
        exact ccdTrianglePair_fst_noroot o pose2AtTime1 triangleId
          t1v0 t1v1 t1v2 t2v0 t2v1 t2v2 hprune hd hpb
    · intro w hpb
      refine ⟨ccdTrianglePair_fst_winner o pose2AtTime1 triangleId
          t1v0 t1v1 t1v2 t2v0 t2v1 t2v2 w hprune hd hpb,
        pickBest_mem _ _ hpb,
        (pickBest_min _ none w hpb).1,
        pickBest_first_wins _ w hpb⟩

/-- The winner of the fifteen concrete slots of the counterexample run: the
first edge/edge slot (ties at time 1/2 everywhere, so the first in
evaluation order is kept). -/
lemma cexPick : pickBest none
    (ccdSlots oCex t1v0Cex t1v1Cex t1v2Cex t2v0Cex t2v1Cex t2v2Cex) = some candCex := by
  norm_num [ccdSlots, oCex, candCex, pickBest_cons_some_none, pickBest_cons_some_some,
    pickBest_cons_none, pickBest_nil]

/-- C8 witness: the concrete run keeps the first edge/edge slot's candidate,
whose time 1/2 is minimal among all reported slots. -/
theorem claim8_witness :
    (ccdTrianglePair oCex idRigid 0 t1v0Cex t1v1Cex t1v2Cex t2v0Cex t2v1Cex t2v2Cex).1 =
      [emitCcdContact idRigid 0 t1v0Cex t1v1Cex t1v2Cex t2v0Cex t2v1Cex t2v2Cex candCex] ∧
    some candCex ∈ ccdSlots oCex t1v0Cex t1v1Cex t1v2Cex t2v0Cex t2v1Cex t2v2Cex ∧
    (∀ d, some d ∈ ccdSlots oCex t1v0Cex t1v1Cex t1v2Cex t2v0Cex t2v1Cex t2v2Cex →
      candCex.time ≤ d.time) ∧
    ∃ l1 l2, ccdSlots oCex t1v0Cex t1v1Cex t1v2Cex t2v0Cex t2v1Cex t2v2Cex =
      l1 ++ some candCex :: l2 ∧ ∀ d, some d ∈ l1 → candCex.time < d.time :=
  ((claim8_earliest_selection oCex idRigid 0 t1v0Cex t1v1Cex t1v2Cex
    t2v0Cex t2v1Cex t2v2Cex cexPrune).2 cexNoOverlap).2 candCex cexPick

lemma cexEmit : emitCcdContact idRigid 0 t1v0Cex t1v1Cex t1v2Cex t2v0Cex t2v1Cex t2v2Cex
    candCex = contactCex := by
  have hT1 : advectedT1 t1v0Cex t1v1Cex t1v2Cex candCex = ⟨0, 0, -1⟩ := by
    norm_num [advectedT1, candCex, t1v0Cex, t1v1Cex, t1v2Cex, Vec3.add, Vec3.sub, Vec3.smul]
  have hT2 : advectedT2 t2v0Cex t2v1Cex t2v2Cex candCex = ⟨0, 0, 0⟩ := by
    norm_num [advectedT2, candCex, t2v0Cex, t2v1Cex, t2v2Cex, Vec3.add, Vec3.sub, Vec3.smul]
  have hnorm : (Vec3.sub ⟨0, 0, -1⟩ ⟨0, 0, 0⟩).normalized = ⟨0, 0, -1⟩ := by
    have hsub : Vec3.sub ⟨0, 0, -1⟩ ⟨0, 0, 0⟩ = (⟨0, 0, -1⟩ : Vec3) := by
      norm_num [Vec3.sub]
    rw [hsub]
    have hd : Vec3.dot ⟨0, 0, -1⟩ ⟨0, 0, -1⟩ = 1 := by norm_num [Vec3.dot]
    rw [Vec3.normalized, Vec3.norm, hd, Real.sqrt_one]
    norm_num [Vec3.smul]
  have hinv : ∀ v : Vec3, idRigid.invApply v = v := by
    intro v
    cases v
    norm_num [RigidTransform.invApply, idRigid, Mat3.transpose, Mat3.mulVec, Vec3.sub,
      Vec3.zero]
  simp only [emitCcdContact, hT1, hT2]
  rw [hnorm, hinv]
  norm_num [candCex, contactCex, locCex, Vec3.dot, Vec3.sub, Vec3.add, Vec3.smul]

lemma cexPairEval : ccdTrianglePair oCex idRigid 0 t1v0Cex t1v1Cex t1v2Cex
    t2v0Cex t2v1Cex t2v2Cex = ([contactCex], 1) := by
  have hfst := ccdTrianglePair_fst_winner oCex idRigid 0 t1v0Cex t1v1Cex t1v2Cex
    t2v0Cex t2v1Cex t2v2Cex candCex cexPrune cexNoOverlap cexPick
  rw [cexEmit] at hfst
  have hsnd : (ccdTrianglePair oCex idRigid 0 t1v0Cex t1v1Cex t1v2Cex
      t2v0Cex t2v1Cex t2v2Cex).2 = 1 := by
    simp only [ccdTrianglePair, if_pos cexPrune, if_neg cexNoOverlap, cexPick]
    rw [if_pos cexDegenerate, if_neg cexNotDegenerate2]
  exact Prod.ext_iff.mpr ⟨hfst, hsnd⟩

/-- Full evaluation of the concrete CCD run: one contact (at time 1/2, with
depth -1) and one degenerate-triangle warning. -/
lemma ccdCexEval : calculateCcdContact oCex shape1Cex idRigid shape1Cex idRigid
    shape2T0Cex idRigid shape2T1Cex idRigid = ([contactCex], 1) := by
  have hstep : calculateCcdContact oCex shape1Cex idRigid shape1Cex idRigid
      shape2T0Cex idRigid shape2T1Cex idRigid =
        ccdTrianglePair oCex idRigid 0 t1v0Cex t1v1Cex t1v2Cex
          t2v0Cex t2v1Cex t2v2Cex := by
    simp only [calculateCcdContact, ccdInnerLoop, MeshShape.numTriangles,
      MeshShape.getTriangle, shape1Cex, shape2T0Cex, shape2T1Cex, List.length_cons,
      List.length_nil, List.range_succ, List.range_zero, List.nil_append,
      List.foldl_cons, List.foldl_nil, List.getD_cons_zero]
    rw [show (vertsT0Cex 3, vertsT1Cex 3) = t1v0Cex from rfl,
      show (vertsT0Cex 4, vertsT1Cex 4) = t1v1Cex from rfl,
      show (vertsT0Cex 5, vertsT1Cex 5) = t1v2Cex from rfl,
      show (vertsT0Cex 0, vertsT1Cex 0) = t2v0Cex from rfl,
      show (vertsT0Cex 1, vertsT1Cex 1) = t2v1Cex from rfl,
      show (vertsT0Cex 2, vertsT1Cex 2) = t2v2Cex from rfl]
    simp
  rw [hstep, cexPairEval]

/-- C6 counterexample to the claim as stated: in the concrete run the first
triangle's t0 cross-product normal is degenerate (below `DistanceEpsilon`,
so the warning is logged — the warning count is 1), yet the pair is not
excluded: `calculateCcdContact` emits a contact for it. -/
theorem claim6_counterexample :
    (((t1v1Cex.1).sub t1v0Cex.1).cross ((t1v2Cex.1).sub t1v0Cex.1)).norm <
      DistanceEpsilon ∧
    (calculateCcdContact oCex shape1Cex idRigid shape1Cex idRigid
      shape2T0Cex idRigid shape2T1Cex idRigid).2 = 1 ∧
    (calculateCcdContact oCex shape1Cex idRigid shape1Cex idRigid
      shape2T0Cex idRigid shape2T1Cex idRigid).1 ≠ [] := by
  refine ⟨cexDegenerate, ?_, ?_⟩
  · rw [ccdCexEval]
  · rw [ccdCexEval]
    simp

lemma emitCcdContact_rigid_eq (pose2AtTime1 : RigidTransform) (triangleId : ℕ)
    (t1v0 t1v1 t1v2 t2v0 t2v1 t2v2 : Vec3 × Vec3) (cand : CcdCandidate) :
    (emitCcdContact pose2AtTime1 triangleId t1v0 t1v1 t1v2 t2v0 t2v1 t2v2
        cand).penetrationPoints.1.rigidLocalPosition =
      (emitCcdContact pose2AtTime1 triangleId t1v0 t1v1 t1v2 t2v0 t2v1 t2v2
        cand).penetrationPoints.2.rigidLocalPosition := rfl

lemma ccdTrianglePair_rigid_eq (o : CcdOracles) (pose2AtTime1 : RigidTransform)
    (triangleId : ℕ) (t1v0 t1v1 t1v2 t2v0 t2v1 t2v2 : Vec3 × Vec3) :
    ∀ c ∈ (ccdTrianglePair o pose2AtTime1 triangleId t1v0 t1v1 t1v2 t2v0 t2v1 t2v2).1,
      c.penetrationPoints.1.rigidLocalPosition =
        c.penetrationPoints.2.rigidLocalPosition := by
  intro c hc
  by_cases hprune : doAabbIntersect (aabbOfSix t1v0.1 t1v0.2 t1v1.1 t1v1.2 t1v2.1 t1v2.2)
      (aabbOfSix t2v0.1 t2v0.2 t2v1.1 t2v1.2 t2v2.1 t2v2.2)
  · by_cases hd :
        (o.distanceTriangleTriangle t1v0.1 t1v1.1 t1v2.1 t2v0.1 t2v1.1 t2v2.1).1 ≤ 0
    · rw [ccdTrianglePair_fst_overlap o pose2AtTime1 triangleId
        t1v0 t1v1 t1v2 t2v0 t2v1 t2v2 hprune hd] at hc
      simp only [List.mem_singleton] at hc
      subst hc
      exact emitCcdContact_rigid_eq _ _ _ _ _ _ _ _ _
    · rcases hpb : pickBest none (ccdSlots o t1v0 t1v1 t1v2 t2v0 t2v1 t2v2) with _ | w
      · rw [ccdTrianglePair_fst_noroot o pose2AtTime1 triangleId
          t1v0 t1v1 t1v2 t2v0 t2v1 t2v2 hprune hd hpb] at hc
        simp at hc
      · rw [ccdTrianglePair_fst_winner o pose2AtTime1 triangleId
          t1v0 t1v1 t1v2 t2v0 t2v1 t2v2 w hprune hd hpb] at hc
        simp only [List.mem_singleton] at hc
        subst hc
        exact emitCcdContact_rigid_eq _ _ _ _ _ _ _ _ _
  · rw [ccdTrianglePair_fst_pruned o pose2AtTime1 triangleId
      t1v0 t1v1 t1v2 t2v0 t2v1 t2v2 hprune] at hc
    simp at hc

/-- C9: the emission block computes the `rigidLocalPosition` of BOTH
penetration-point Locations from the same advected point `T1` (the first
triangle's point at t1) transformed by the inverse of the second shape's
pose at t1; consequently every contact `calculateCcdContact` emits has equal
`rigidLocalPosition`s on its two Locations. -/
theorem claim9_rigid_local_from_T1 :
    (∀ (pose2AtTime1 : RigidTransform) (triangleId : ℕ)
        (t1v0 t1v1 t1v2 t2v0 t2v1 t2v2 : Vec3 × Vec3) (cand : CcdCandidate),
      (emitCcdContact pose2AtTime1 triangleId t1v0 t1v1 t1v2 t2v0 t2v1 t2v2
          cand).penetrationPoints.1.rigidLocalPosition =
        some (pose2AtTime1.invApply (advectedT1 t1v0 t1v1 t1v2 cand)) ∧
      (emitCcdContact pose2AtTime1 triangleId t1v0 t1v1 t1v2 t2v0 t2v1 t2v2
          cand).penetrationPoints.2.rigidLocalPosition =
        some (pose2AtTime1.invApply (advectedT1 t1v0 t1v1 t1v2 cand))) ∧
    (∀ (o : CcdOracles) (shape1AtTime0 : MeshShape) (pose1AtTime0 : RigidTransform)
        (shape1AtTime1 : MeshShape) (pose1AtTime1 : RigidTransform)
        (shape2AtTime0 : MeshShape) (pose2AtTime0 : RigidTransform)
        (shape2AtTime1 : MeshShape) (pose2AtTime1 : RigidTransform),
      ∀ c ∈ (calculateCcdContact o shape1AtTime0 pose1AtTime0 shape1AtTime1 pose1AtTime1
          shape2AtTime0 pose2AtTime0 shape2AtTime1 pose2AtTime1).1,
        c.penetrationPoints.1.rigidLocalPosition =
          c.penetrationPoints.2.rigidLocalPosition) := by
  constructor
  · intro pose2AtTime1 triangleId t1v0 t1v1 t1v2 t2v0 t2v1 t2v2 cand
    exact ⟨rfl, rfl⟩
  · intro o s1t0 p1t0 s1t1 p1t1 s2t0 p2t0 s2t1 p2t1
    refine foldl_inv _
      (fun p : List Contact × ℕ => ∀ c ∈ p.1,
        c.penetrationPoints.1.rigidLocalPosition =
          c.penetrationPoints.2.rigidLocalPosition)
      (List.range s1t0.numTriangles) ([], 0) (by simp) ?_
    intro x t _ ht
    refine foldl_inv _
      (fun p : List Contact × ℕ => ∀ c ∈ p.1,
        c.penetrationPoints.1.rigidLocalPosition =
          c.penetrationPoints.2.rigidLocalPosition)
      (List.range s2t0.numTriangles) t ht ?_
    intro y u _ hu
    intro c hc
    simp only [List.mem_append] at hc
    rcases hc with hc | hc
    · exact hu c hc
    · exact ccdTrianglePair_rigid_eq o p2t1 y _ _ _ _ _ _ c hc

/-- C9 witness: the concrete emitted contact carries the same
rigidLocalPosition on both Locations. -/
theorem claim9_witness :
    contactCex.penetrationPoints.1.rigidLocalPosition =
      contactCex.penetrationPoints.2.rigidLocalPosition :=
  claim9_rigid_local_from_T1.2 oCex shape1Cex idRigid shape1Cex idRigid
    shape2T0Cex idRigid shape2T1Cex idRigid contactCex (by rw [ccdCexEval]; simp)

/-- C7 (amended): every DCD contact has depth ≥ 0 (the absolute value is
stored) and time 1.0; every CCD contact's time lies in [0,1] whenever the
swept root-finders only report roots in [0,1] (the spec's contract for
them).  The claim's "depth ≥ 0" fails for CCD contacts — see the
counterexample. -/
theorem claim7_contact_bounds :
    (∀ (o : DcdOracles) (meshA : MeshShape) (poseA : RigidTransform) (meshB : MeshShape)
        (poseB : RigidTransform) (intersectionList : List (List ℕ × List ℕ)),
      ∀ c ∈ calculateDcdContact o meshA poseA meshB poseB intersectionList,
        0 ≤ c.depth ∧ c.time = 1) ∧
    (∀ o : CcdOracles,
      (∀ a b u v r, o.calculateCcdContactSegmentSegment a b u v = some r →
        0 ≤ r.1 ∧ r.1 ≤ 1) →
      (∀ a b u v r, o.calculateCcdContactPointTriangle a b u v = some r →
        0 ≤ r.1 ∧ r.1 ≤ 1) →
      ∀ (shape1AtTime0 : MeshShape) (pose1AtTime0 : RigidTransform)
        (shape1AtTime1 : MeshShape) (pose1AtTime1 : RigidTransform)
        (shape2AtTime0 : MeshShape) (pose2AtTime0 : RigidTransform)
        (shape2AtTime1 : MeshShape) (pose2AtTime1 : RigidTransform),
      ∀ c ∈ (calculateCcdContact o shape1AtTime0 pose1AtTime0 shape1AtTime1 pose1AtTime1
          shape2AtTime0 pose2AtTime0 shape2AtTime1 pose2AtTime1).1,
        0 ≤ c.time ∧ c.time ≤ 1) :=
  ⟨fun o meshA poseA meshB poseB il => calculateDcdContact_bounds o meshA poseA meshB poseB il,
   fun o hseg hpt s1t0 p1t0 s1t1 p1t1 s2t0 p2t0 s2t1 p2t1 =>
     calculateCcdContact_time_bounds o hseg hpt s1t0 p1t0 s1t1 p1t1 s2t0 p2t0 s2t1 p2t1⟩

/-- C7 witness: the concrete run's contact has its time within [0,1]. -/
theorem claim7_witness : 0 ≤ contactCex.time ∧ contactCex.time ≤ 1 :=
  claim7_contact_bounds.2 oCex
    (fun a b u v r hr => by
      simp only [oCex] at hr
      rw [← Option.some.inj hr]
      norm_num)
    (fun a b u v r hr => by simp only [oCex] at hr; cases hr)
    shape1Cex idRigid shape1Cex idRigid shape2T0Cex idRigid shape2T1Cex idRigid
    contactCex (by rw [ccdCexEval]; simp)

/-- C7 counterexample to the claim as stated: the concrete CCD run emits a
contact of depth -1 < 0 (for an edge/edge impact the code's depth
`(T2 - T1) · (T1 - T2).normalized()` is the negated distance of the advected
points, never positive). -/
theorem claim7_counterexample :
    ∃ c ∈ (calculateCcdContact oCex shape1Cex idRigid shape1Cex idRigid
      shape2T0Cex idRigid shape2T1Cex idRigid).1, c.depth < 0 := by
  refine ⟨contactCex, by rw [ccdCexEval]; simp, ?_⟩
  norm_num [contactCex]

/-- C10: the result of `calculateCcdContact` does not depend on the first
shape's vertex positions (nor its cached normals): every vertex position
used, including those of the "first" triangle, is read from the second
shape's vertex arrays. -/
theorem claim10_shape1_vertex_independence (o : CcdOracles)
    (shape1AtTime0 shape1AtTime0' shape1AtTime1 shape1AtTime1' : MeshShape)
    (pose1AtTime0 pose1AtTime1 : RigidTransform)
    (shape2AtTime0 : MeshShape) (pose2AtTime0 : RigidTransform)
    (shape2AtTime1 : MeshShape) (pose2AtTime1 : RigidTransform)
    (h0 : shape1AtTime0.triangles = shape1AtTime0'.triangles)
    (h1 : shape1AtTime1.triangles = shape1AtTime1'.triangles) :
    calculateCcdContact o shape1AtTime0 pose1AtTime0 shape1AtTime1 pose1AtTime1
        shape2AtTime0 pose2AtTime0 shape2AtTime1 pose2AtTime1 =
      calculateCcdContact o shape1AtTime0' pose1AtTime0 shape1AtTime1' pose1AtTime1
        shape2AtTime0 pose2AtTime0 shape2AtTime1 pose2AtTime1 := by
  cases shape1AtTime0 with
  | mk v0 t0 n0 =>
  cases shape1AtTime0' with
  | mk v0' t0' n0' =>
  cases shape1AtTime1 with
  | mk v1 t1 n1 =>
  cases shape1AtTime1' with
  | mk v1' t1' n1' =>
  obtain rfl : t0 = t0' := h0
  obtain rfl : t1 = t1' := h1
  rfl

/-- C10 witness: moving every vertex of the first shape leaves the concrete
run's result unchanged. -/
theorem claim10_witness :
    calculateCcdContact oCex shape1Cex idRigid shape1Cex idRigid
        shape2T0Cex idRigid shape2T1Cex idRigid =
      calculateCcdContact oCex shape1CexMoved idRigid shape1CexMoved idRigid
        shape2T0Cex idRigid shape2T1Cex idRigid :=
  claim10_shape1_vertex_independence oCex shape1Cex shape1CexMoved shape1Cex
    shape1CexMoved idRigid idRigid shape2T0Cex idRigid shape2T1Cex idRigid rfl rfl

end Collision

end SurgSim
